import Mathlib

/-!
Verification of the order-orchestration and warehouse-selection core of the
`assigmentCanals` backend, shallowly embedded in Lean 4.

Modelling conventions used throughout:
* the SQL tables (`customers`, `products`, `warehouses`, `inventory`,
  `orders`, `order_items`) become lists of records in a `Database` record;
  list order models the physical row (primary-key) scan order of the tables;
* Python `float` money and coordinate values become `ℚ`;
* the transcendental haversine distance (`math.sin` etc.) is modelled over
  `ℝ` for its algebraic claims, while `find_best_warehouse` takes the
  distance function as an explicit parameter `dist` (the code passes
  `haversine_distance` there, which is not executable);
* `hashlib.sha256` inside the geocoder is abstracted into a parameter
  `sha_slices` giving the two 32-bit integers that the code extracts from
  hex characters 0..7 and 8..15 of the digest;
* `uuid.uuid4().hex[:16]` inside the payment gateway is abstracted into a
  `fresh_suffix` parameter;
* SQLAlchemy query results (`.all()`, `.first()`, `.in_`) become
  `List.filter` / `List.find?` over the table lists.
-/

namespace Canals

/-- Decidable equality of call outcomes (used to evaluate concrete runs). -/
instance {ε α : Type} [DecidableEq ε] [DecidableEq α] : DecidableEq (Except ε α) := fun x y =>
  match x, y with
  | .ok a, .ok b =>
    if h : a = b then .isTrue (congrArg Except.ok h)
    else .isFalse (fun hc => h (Except.ok.inj hc))
  | .ok _, .error _ => .isFalse (fun hc => Except.noConfusion hc)
  | .error _, .ok _ => .isFalse (fun hc => Except.noConfusion hc)
  | .error e, .error f =>
    if h : e = f then .isTrue (congrArg Except.error h)
    else .isFalse (fun hc => h (Except.error.inj hc))

/-- `GeoLocation` dataclass from `app/services/geocoding.py`. -/
structure GeoLocation where
  latitude : ℚ
  longitude : ℚ
deriving DecidableEq

/-- `Customer` model from `app/models.py`. -/
structure Customer where
  id : Nat
  name : String
  email : String
deriving DecidableEq

/-- `Product` model from `app/models.py`; `price` is a `Float` column. -/
structure Product where
  id : Nat
  name : String
  price : ℚ
deriving DecidableEq

/-- `Warehouse` model from `app/models.py`. -/
structure Warehouse where
  id : Nat
  name : String
  address : String
  latitude : ℚ
  longitude : ℚ
deriving DecidableEq

/-- `Inventory` model from `app/models.py`; primary key is
`(warehouse_id, product_id)`. -/
structure Inventory where
  warehouse_id : Nat
  product_id : Nat
  quantity : Nat
deriving DecidableEq

/-- `Order` model from `app/models.py` (`created_at` timestamp omitted:
wall-clock time is outside the embedding). -/
structure Order where
  id : Nat
  customer_id : Nat
  warehouse_id : Nat
  shipping_address : String
  shipping_lat : ℚ
  shipping_lng : ℚ
  total_amount : ℚ
  payment_id : String
  status : String
deriving DecidableEq

/-- `OrderItem` model from `app/models.py`. -/
structure OrderItem where
  id : Nat
  order_id : Nat
  product_id : Nat
  quantity : Nat
  unit_price : ℚ
deriving DecidableEq

/-- The relational store: one list per table, in physical row order
(rows are returned by unordered SQLAlchemy queries in primary-key scan
order, which is the insertion order of the seed data). -/
structure Database where
  customers : List Customer
  products : List Product
  warehouses : List Warehouse
  inventory : List Inventory
  orders : List Order
  order_items : List OrderItem
deriving DecidableEq

/-- `ShippingAddress` schema from `app/schemas.py`. -/
structure ShippingAddress where
  street : String
  city : String
  state : String
  zip : String
  country : String
deriving DecidableEq

/-- `ShippingAddress.to_string` from `app/schemas.py`:
`f"{self.street}, {self.city}, {self.state} {self.zip}, {self.country}"`. -/
def ShippingAddress.to_string (a : ShippingAddress) : String :=
  a.street ++ ", " ++ a.city ++ ", " ++ a.state ++ " " ++ a.zip ++ ", " ++ a.country

/-- `CreditCard` schema from `app/schemas.py`. -/
structure CreditCard where
  number : String
  expiry : String
  cvv : String
deriving DecidableEq

/-- `OrderItemRequest` schema from `app/schemas.py`. -/
structure OrderItemRequest where
  product_id : Nat
  quantity : Nat
deriving DecidableEq

/-- `CreateOrderRequest` schema from `app/schemas.py`. -/
structure CreateOrderRequest where
  customer_id : Nat
  shipping_address : ShippingAddress
  credit_card : CreditCard
  items : List OrderItemRequest
deriving DecidableEq

/-! ### Payment gateway (`app/services/payment.py`) -/

/-- `PaymentResult` dataclass from `app/services/payment.py`. -/
structure PaymentResult where
  success : Bool
  payment_id : Option String
  error_message : Option String
deriving DecidableEq

/-- `process_payment` from `app/services/payment.py`.  The opaque value
`uuid.uuid4().hex[:16]` is abstracted into the extra `fresh_suffix`
parameter; `description` is accepted and ignored exactly as in the source;
`card_number.startswith("0")` is rendered as a test on the head character
(`String.startsWith` does not reduce in the kernel). -/
def process_payment (card_number : String) (amount : ℚ) (description : String)
    (fresh_suffix : String) : PaymentResult :=
  if card_number.isEmpty || card_number.length < 13 then
    { success := false, payment_id := none, error_message := some "Invalid card number" }
  else if amount ≤ 0 then
    { success := false, payment_id := none, error_message := some "Invalid amount" }
  else if card_number.data.head? == some '0' then
    { success := false, payment_id := none, error_message := some "Card declined by issuer" }
  else
    { success := true, payment_id := some ("pay_" ++ fresh_suffix), error_message := none }

/-! ### Geocoder (`app/services/geocoding.py`) -/

/-- Python `round(x, 6)` on the rational model: round to the nearest
multiple of `10⁻⁶`. -/
def round6 (x : ℚ) : ℚ :=
  ((round (x * 1000000) : ℤ) : ℚ) / 1000000

/-- `geocode_address` from `app/services/geocoding.py`.  `sha_slices s`
stands for `(int(sha256(s).hexdigest()[:8], 16), int(...[8:16], 16))`;
both components are 32-bit values by construction of the hex digest. -/
def geocode_address (sha_slices : String → Nat × Nat) (address : String) : GeoLocation :=
  let lat_hash : ℚ := ((sha_slices address.toLower).1 : ℚ)
  let lng_hash : ℚ := ((sha_slices address.toLower).2 : ℚ)
  let max_val : ℚ := (0xFFFFFFFF : ℚ)
  let latitude : ℚ := 25 + (lat_hash / max_val) * 24
  let longitude : ℚ := -125 + (lng_hash / max_val) * 58
  { latitude := round6 latitude, longitude := round6 longitude }

/-! ### Warehouse selector (`app/services/warehouse_service.py`) -/

/-- `haversine_distance` from `app/services/warehouse_service.py`,
over `ℝ` (the source computes with `math` floating-point functions). -/
noncomputable def radians (x : ℝ) : ℝ := x * Real.pi / 180

/-- `math.atan2 y x` over `ℝ`, with the IEEE branch structure
(`atan2 0 0 = 0`). -/
noncomputable def atan2 (y x : ℝ) : ℝ :=
  if 0 < x then Real.arctan (y / x)
  else if x < 0 ∧ 0 ≤ y then Real.arctan (y / x) + Real.pi
  else if x < 0 ∧ y < 0 then Real.arctan (y / x) - Real.pi
  else if x = 0 ∧ 0 < y then Real.pi / 2
  else if x = 0 ∧ y < 0 then -(Real.pi / 2)
  else 0

/-- `haversine_distance(lat1, lon1, lat2, lon2)` from
`app/services/warehouse_service.py`. -/
noncomputable def haversine_distance (lat1 lon1 lat2 lon2 : ℝ) : ℝ :=
  let R : ℝ := 6371
  let lat1_rad := radians lat1
  let lat2_rad := radians lat2
  let delta_lat := radians (lat2 - lat1)
  let delta_lon := radians (lon2 - lon1)
  let a := Real.sin (delta_lat / 2) ^ 2 +
    Real.cos lat1_rad * Real.cos lat2_rad * Real.sin (delta_lon / 2) ^ 2
  let c := 2 * atan2 (Real.sqrt a) (Real.sqrt (1 - a))
  R * c

/-- The dict comprehension
`required_quantities = {item[0]: item[1] for item in items}`:
lookup returns the value of the last pair carrying the key (later
assignments overwrite earlier ones); total with junk value `0` outside the
key set (the source never looks up a key outside `product_ids`). -/
def required_quantities (items : List (Nat × Nat)) (pid : Nat) : Nat :=
  ((items.reverse.find? (fun it => it.1 == pid)).map Prod.snd).getD 0

/-- One iteration of the grouping loop (lines 72–82): the re-query
`db.query(Inventory).filter(warehouse_id == wh, product_id == pid).first()`
followed by the quantity check `inv.quantity >= required_quantities[pid]`. -/
def row_passes (db : Database) (required : Nat → Nat) (row : Inventory) : Bool :=
  match db.inventory.find? (fun i =>
      i.warehouse_id == row.warehouse_id && i.product_id == row.product_id) with
  | some inv => required row.product_id ≤ inv.quantity
  | none => false

/-- `warehouse_products[warehouse_id].append(product_id)` with the
`if warehouse_id not in warehouse_products: ... = []` guard: append `v` to
the entry of key `k`, creating the entry at the end when absent. -/
def dictAppend : List (Nat × List Nat) → Nat → Nat → List (Nat × List Nat)
  | [], k, v => [(k, [v])]
  | e :: es, k, v =>
    if e.1 == k then (e.1, e.2 ++ [v]) :: es else e :: dictAppend es k v

/-- Python dict lookup on the association-list model (empty when absent). -/
def dictGet (d : List (Nat × List Nat)) (k : Nat) : List Nat :=
  match d.find? (fun e => e.1 == k) with
  | some e => e.2
  | none => []

/-- The body of the grouping loop of `find_best_warehouse`. -/
def build_step (db : Database) (required : Nat → Nat)
    (d : List (Nat × List Nat)) (row : Inventory) : List (Nat × List Nat) :=
  if row_passes db required row then dictAppend d row.warehouse_id row.product_id else d

/-- The `for warehouse in warehouses` scan of lines 106–120: keep the
current best warehouse together with its distance (`float('inf')` start is
the `none` accumulator), replacing it only on a strictly smaller distance. -/
def select_closest (d : Warehouse → ℚ) :
    Option (Warehouse × ℚ) → List Warehouse → Option Warehouse
  | best, [] => best.map Prod.fst
  | best, w :: ws =>
    let dw := d w
    match best with
    | none => select_closest d (some (w, dw)) ws
    | some (bw, bd) =>
      if dw < bd then select_closest d (some (w, dw)) ws
      else select_closest d (some (bw, bd)) ws

/-- `find_best_warehouse` from `app/services/warehouse_service.py`.
`dist` abstracts the call to `haversine_distance` (transcendental in the
source); the selection logic is proved for every `dist`. -/
def find_best_warehouse (dist : ℚ → ℚ → ℚ → ℚ → ℚ) (db : Database)
    (items : List (Nat × Nat)) (shipping_location : GeoLocation) : Option Warehouse :=
  if items.isEmpty then none
  else
    let product_ids := items.map Prod.fst
    let required := required_quantities items
    let num_products := product_ids.length
    let qualifying_inventory := db.inventory.filter (fun inv =>
      product_ids.contains inv.product_id)
    let warehouse_products := qualifying_inventory.foldl (build_step db required) []
    let qualifying_warehouse_ids :=
      (warehouse_products.filter (fun e => e.2.length == num_products)).map Prod.fst
    if qualifying_warehouse_ids.isEmpty then none
    else
      let warehouses := db.warehouses.filter (fun w =>
        qualifying_warehouse_ids.contains w.id)
      if warehouses.isEmpty then none
      else if warehouses.length == 1 then warehouses.head?
      else
        select_closest (fun w =>
          dist shipping_location.latitude shipping_location.longitude
            w.latitude w.longitude) none warehouses

/-! ### Order orchestrator (`app/services/order_service.py`) -/

/-- The error taxonomy of `app/services/order_service.py`, as a closed
variant type carrying each class's structured payload. -/
inductive OrderServiceError where
  | customerNotFound (customer_id : Nat)
  | productsNotFound (product_ids : List Nat)
  | noWarehouseAvailable
  | paymentFailed (message : String)
deriving DecidableEq

/-- The human-readable message of each error class, mirroring the
`__init__` bodies of the exception subclasses. -/
def OrderServiceError.message : OrderServiceError → String
  | .customerNotFound cid => "Customer with id " ++ toString cid ++ " not found"
  | .productsNotFound ids =>
    "Products not found: " ++ String.intercalate ", " (ids.map toString)
  | .noWarehouseAvailable => "No warehouse has all requested products in sufficient quantity"
  | .paymentFailed msg => "Payment failed: " ++ msg

/-- Step 1 of `create_order`:
`db.query(Customer).filter(Customer.id == request.customer_id).first()`. -/
def customer_lookup (db : Database) (request : CreateOrderRequest) : Option Customer :=
  db.customers.find? (fun c => c.id == request.customer_id)

/-- `product_ids = [item.product_id for item in request.items]`. -/
def request_product_ids (request : CreateOrderRequest) : List Nat :=
  request.items.map OrderItemRequest.product_id

/-- The dict `products_map = {p.id: p for p in products}` built from
`products = db.query(Product).filter(Product.id.in_(product_ids)).all()`,
as a lookup function. -/
def products_map (db : Database) (product_ids : List Nat) (pid : Nat) : Option Product :=
  (db.products.filter (fun p => product_ids.contains p.id)).find? (fun p => p.id == pid)

/-- `missing_products = [pid for pid in product_ids if pid not in products_map]`. -/
def missing_products (db : Database) (request : CreateOrderRequest) : List Nat :=
  (request_product_ids request).filter (fun pid =>
    (products_map db (request_product_ids request) pid).isNone)

/-- Steps 3–4 of `create_order`: geocode the rendered shipping address and
run the warehouse selector on `[(item.product_id, item.quantity), ...]`. -/
def selected_warehouse (dist : ℚ → ℚ → ℚ → ℚ → ℚ) (sha_slices : String → Nat × Nat)
    (db : Database) (request : CreateOrderRequest) : Option Warehouse :=
  find_best_warehouse dist db (request.items.map (fun i => (i.product_id, i.quantity)))
    (geocode_address sha_slices request.shipping_address.to_string)

/-- Step 5 of `create_order`:
`total_amount = sum(products_map[item.product_id].price * item.quantity ...)`.
The lookup is total (`getD 0` outside the domain); the source only reaches
this line when every requested id is present. -/
def order_total (db : Database) (product_ids : List Nat)
    (items : List OrderItemRequest) : ℚ :=
  (items.map (fun item =>
    ((products_map db product_ids item.product_id).map Product.price).getD 0 *
      (item.quantity : ℚ))).sum

/-- `payment_description` string of step 6 (ignored by the gateway). -/
def payment_description (customer_id : Nat) (n : Nat) : String :=
  "Order for customer " ++ toString customer_id ++ ": " ++ toString n ++ " items"

/-- Step 6 of `create_order` as a standalone expression.  The gateway
ignores `description`, so this coincides definitionally with the call made
inside `create_order` (which passes the looked-up customer's id). -/
def request_payment (fresh_suffix : String) (db : Database)
    (request : CreateOrderRequest) : PaymentResult :=
  process_payment request.credit_card.number
    (order_total db (request_product_ids request) request.items)
    (payment_description request.customer_id request.items.length) fresh_suffix

/-- `create_order` from `app/services/order_service.py`.  Returns the
outcome (the persisted order and its items, or the raised error) together
with the database after the call; every failure path raises before any
write, so it returns the store unchanged.  Auto-increment ids are modelled
as successor of the current row count. -/
def create_order (dist : ℚ → ℚ → ℚ → ℚ → ℚ) (sha_slices : String → Nat × Nat)
    (fresh_suffix : String) (db : Database) (request : CreateOrderRequest) :
    Except OrderServiceError (Order × List OrderItem) × Database :=
  match customer_lookup db request with
  | none => (.error (.customerNotFound request.customer_id), db)
  | some customer =>
    let product_ids := request_product_ids request
    if (missing_products db request).isEmpty then
      let shipping_address_str := request.shipping_address.to_string
      let geo_location := geocode_address sha_slices shipping_address_str
      match selected_warehouse dist sha_slices db request with
      | none => (.error .noWarehouseAvailable, db)
      | some warehouse =>
        let total_amount := order_total db product_ids request.items
        let payment_result := process_payment request.credit_card.number total_amount
          (payment_description customer.id request.items.length) fresh_suffix
        if payment_result.success then
          let order : Order :=
            { id := db.orders.length + 1
              customer_id := request.customer_id
              warehouse_id := warehouse.id
              shipping_address := shipping_address_str
              shipping_lat := geo_location.latitude
              shipping_lng := geo_location.longitude
              total_amount := total_amount
              payment_id := payment_result.payment_id.getD ""
              status := "confirmed" }
          let order_items : List OrderItem := request.items.enum.map (fun pr =>
            { id := db.order_items.length + pr.1 + 1
              order_id := order.id
              product_id := pr.2.product_id
              quantity := pr.2.quantity
              unit_price := ((products_map db product_ids pr.2.product_id).map
                Product.price).getD 0 })
          (.ok (order, order_items),
            { db with
                orders := db.orders ++ [order]
                order_items := db.order_items ++ order_items })
        else
          (.error (.paymentFailed (match payment_result.error_message with
            | none => "Unknown error"
            | some m => if m = "" then "Unknown error" else m)), db)
    else (.error (.productsNotFound (missing_products db request)), db)

/-- Mutation of a product's price after order creation
(`product.price = new_price` through the ORM): only the `products` table
changes. -/
def set_product_price (db : Database) (pid : Nat) (new_price : ℚ) : Database :=
  { db with products := db.products.map (fun p =>
      if p.id == pid then { p with price := new_price } else p) }

/-- Modelled from the spec (§4.3 item 1, used to compare the code's
count-based coverage check against the spec's words): a warehouse
qualifies iff for every requested `(product id, quantity)` pair it has an
inventory entry for that product with at least the requested quantity. -/
def warehouse_qualifies (db : Database) (items : List (Nat × Nat)) (wid : Nat) : Bool :=
  items.all (fun pair => db.inventory.any (fun inv =>
    inv.warehouse_id == wid && inv.product_id == pair.1 && pair.2 ≤ inv.quantity))

/-! ### Concrete fixtures used by the closed witness and counterexample
theorems -/

/-- A trivial distance function (any concrete instantiation of the
abstract `dist` parameter is admissible). -/
def zeroDist : ℚ → ℚ → ℚ → ℚ → ℚ := fun _ _ _ _ => 0

/-- A trivial hash-slice function: both 32-bit slices are `0`. -/
def zeroSha : String → Nat × Nat := fun _ => (0, 0)

/-- A one-customer / one-product / one-warehouse store with ample stock. -/
def exampleDb : Database :=
  { customers := [{ id := 1, name := "Alice", email := "alice@example.com" }]
    products := [{ id := 1, name := "Widget", price := 5 }]
    warehouses := [{ id := 1, name := "Main", address := "1 Depot Way", latitude := 0, longitude := 0 }]
    inventory := [{ warehouse_id := 1, product_id := 1, quantity := 10 }]
    orders := []
    order_items := [] }

def exampleAddress : ShippingAddress :=
  { street := "1 Main St", city := "Springfield", state := "IL", zip := "62701", country := "USA" }

def exampleCard : CreditCard :=
  { number := "4111111111111111", expiry := "12/30", cvv := "123" }

/-- A well-formed order request against `exampleDb`. -/
def exampleRequest : CreateOrderRequest :=
  { customer_id := 1, shipping_address := exampleAddress, credit_card := exampleCard
    items := [{ product_id := 1, quantity := 2 }] }

/-! ### C6 — payment validation order and reason strings -/

/-- C6 counterexample: the code's decline reason for a card starting with
the digit 0 is the string "Card declined by issuer", not the claim's
"declined by issuer". -/
theorem process_payment_reason_text_counterexample :
    (process_payment "0123456789012" 10 "desc" "x").error_message
        = some "Card declined by issuer"
    ∧ (process_payment "0123456789012" 10 "desc" "x").error_message
        ≠ some "declined by issuer" := by
  exact ⟨by decide, by decide⟩

/-- C6 (amended): `process_payment` applies its checks in a fixed order and
the first failing check determines the result: a missing card number or one
shorter than 13 characters fails with reason "Invalid card number";
otherwise an amount ≤ 0 fails with reason "Invalid amount"; otherwise a
card number beginning with the digit 0 fails with reason
"Card declined by issuer"; otherwise the charge succeeds with a non-null
payment identifier and no error reason. -/
theorem process_payment_check_order (card : String) (amount : ℚ) (desc fresh : String) :
    (card.length < 13 →
      process_payment card amount desc fresh =
        { success := false, payment_id := none, error_message := some "Invalid card number" })
  ∧ (13 ≤ card.length → amount ≤ 0 →
      process_payment card amount desc fresh =
        { success := false, payment_id := none, error_message := some "Invalid amount" })
  ∧ (13 ≤ card.length → 0 < amount → card.data.head? = some '0' →
      process_payment card amount desc fresh =
        { success := false, payment_id := none, error_message := some "Card declined by issuer" })
  ∧ (13 ≤ card.length → 0 < amount → card.data.head? ≠ some '0' →
      process_payment card amount desc fresh =
        { success := true, payment_id := some ("pay_" ++ fresh), error_message := none }) := by
  have hemp : card.isEmpty = true → card.length = 0 := fun h => by
    rw [(String.isEmpty_iff card).mp h]; rfl
  have hguard : 13 ≤ card.length → (card.isEmpty || decide (card.length < 13)) = false := by
    intro h13
    cases he : card.isEmpty
    · simp [Nat.not_lt.mpr h13]
    · have := hemp he; omega
  refine ⟨fun h13 => ?_, fun h13 hle => ?_, fun h13 hpos h0 => ?_, fun h13 hpos h0 => ?_⟩
  · have hg : (card.isEmpty || decide (card.length < 13)) = true := by simp [h13]
    simp [process_payment, hg]
  · simp [process_payment, hguard h13, hle]
  · simp [process_payment, hguard h13, not_le.mpr hpos, h0]
  · have hbeq : (card.data.head? == some '0') = false := beq_eq_false_iff_ne.mpr h0
    simp [process_payment, hguard h13, not_le.mpr hpos, hbeq]

/-- C6 witness: a 16-character card not starting with 0 and a positive
amount satisfy the hypotheses of the success branch. -/
theorem process_payment_check_order_witness :
    (13 ≤ ("4111111111111111" : String).length ∧ (0 : ℚ) < 10
      ∧ ("4111111111111111" : String).data.head? ≠ some '0')
    ∧ process_payment "4111111111111111" 10 "witness" "abc" =
        { success := true, payment_id := some ("pay_" ++ "abc"), error_message := none } :=
  ⟨⟨by decide, by decide, by decide⟩,
    (process_payment_check_order "4111111111111111" 10 "witness" "abc").2.2.2
      (by decide) (by decide) (by decide)⟩

/-! ### C8 — haversine distance: zero on the diagonal, symmetric -/

/-- C8: the haversine distance from a coordinate to itself is 0, and the
distance is symmetric in its two coordinate arguments. -/
theorem haversine_distance_zero_and_symm :
    (∀ lat lon : ℝ, haversine_distance lat lon lat lon = 0)
  ∧ (∀ lat1 lon1 lat2 lon2 : ℝ,
      haversine_distance lat1 lon1 lat2 lon2 = haversine_distance lat2 lon2 lat1 lon1) := by
  have h01 : atan2 0 1 = 0 := by
    rw [atan2, if_pos one_pos]
    rw [zero_div, Real.arctan_zero]
  have hsq : ∀ x y : ℝ, Real.sin (radians (x - y) / 2) ^ 2
      = Real.sin (radians (y - x) / 2) ^ 2 := by
    intro x y
    have hneg : radians (x - y) = -(radians (y - x)) := by
      rw [radians, radians]; ring
    rw [hneg, neg_div, Real.sin_neg, neg_sq]
  constructor
  · intro lat lon
    simp only [haversine_distance, sub_self]
    have hr0 : radians 0 = 0 := by rw [radians]; ring
    rw [hr0]
    norm_num [h01]
  · intro lat1 lon1 lat2 lon2
    simp only [haversine_distance]
    rw [hsq lat2 lat1, hsq lon2 lon1]
    ring_nf

/-! ### C7 — geocoder contract -/

/-- `round6` keeps a value inside an interval with integer endpoints. -/
theorem round6_bounds {lo hi : ℤ} {q : ℚ} (h1 : (lo : ℚ) ≤ q) (h2 : q ≤ (hi : ℚ)) :
    (lo : ℚ) ≤ round6 q ∧ round6 q ≤ (hi : ℚ) := by
  have hlo : lo * 1000000 ≤ round (q * 1000000) := by
    rw [round_eq, Int.le_floor]
    push_cast
    linarith
  have hhi : round (q * 1000000) ≤ hi * 1000000 := by
    rw [round_eq]
    have hlt : ⌊q * 1000000 + 1 / 2⌋ < hi * 1000000 + 1 := by
      rw [Int.floor_lt]
      push_cast
      linarith
    omega
  constructor
  · rw [round6, le_div_iff (by norm_num : (0:ℚ) < 1000000)]
    calc (lo : ℚ) * 1000000 = ((lo * 1000000 : ℤ) : ℚ) := by push_cast; ring
    _ ≤ _ := by exact_mod_cast hlo
  · rw [round6, div_le_iff (by norm_num : (0:ℚ) < 1000000)]
    calc ((round (q * 1000000) : ℤ) : ℚ) ≤ ((hi * 1000000 : ℤ) : ℚ) := by exact_mod_cast hhi
    _ = (hi : ℚ) * 1000000 := by push_cast; ring

/-- C7: geocoding is deterministic, depends only on the lowercased form of
the address, lands inside latitude [25,49] and longitude [-125,-67], and
both coordinates are integer multiples of 10⁻⁶; every address string
(the empty string included) produces a coordinate. -/
theorem geocode_address_contract (sha_slices : String → Nat × Nat)
    (hsha : ∀ s, (sha_slices s).1 ≤ 0xFFFFFFFF ∧ (sha_slices s).2 ≤ 0xFFFFFFFF)
    (A : String) :
    geocode_address sha_slices A = geocode_address sha_slices A
  ∧ (∀ B, A.toLower = B.toLower →
      geocode_address sha_slices A = geocode_address sha_slices B)
  ∧ 25 ≤ (geocode_address sha_slices A).latitude
  ∧ (geocode_address sha_slices A).latitude ≤ 49
  ∧ -125 ≤ (geocode_address sha_slices A).longitude
  ∧ (geocode_address sha_slices A).longitude ≤ -67
  ∧ (∃ z : ℤ, (geocode_address sha_slices A).latitude = (z : ℚ) / 1000000)
  ∧ (∃ z : ℤ, (geocode_address sha_slices A).longitude = (z : ℚ) / 1000000) := by
  have hr1 : (0:ℚ) ≤ ((sha_slices A.toLower).1 : ℚ) / 4294967295 := by positivity
  have hr1le : ((sha_slices A.toLower).1 : ℚ) / 4294967295 ≤ 1 := by
    rw [div_le_one (by norm_num : (0:ℚ) < 4294967295)]
    exact_mod_cast (hsha A.toLower).1
  have hr2 : (0:ℚ) ≤ ((sha_slices A.toLower).2 : ℚ) / 4294967295 := by positivity
  have hr2le : ((sha_slices A.toLower).2 : ℚ) / 4294967295 ≤ 1 := by
    rw [div_le_one (by norm_num : (0:ℚ) < 4294967295)]
    exact_mod_cast (hsha A.toLower).2
  have hlat := @round6_bounds 25 49
    (25 + ((sha_slices A.toLower).1 : ℚ) / 4294967295 * 24)
    (by push_cast; nlinarith) (by push_cast; nlinarith)
  have hlng := @round6_bounds (-125) (-67)
    (-125 + ((sha_slices A.toLower).2 : ℚ) / 4294967295 * 58)
    (by push_cast; nlinarith) (by push_cast; nlinarith)
  refine ⟨rfl, fun B hB => by simp only [geocode_address, hB], ?_, ?_, ?_, ?_, ?_, ?_⟩
  · simp only [geocode_address]
    exact_mod_cast hlat.1
  · simp only [geocode_address]
    exact_mod_cast hlat.2
  · simp only [geocode_address]
    exact_mod_cast hlng.1
  · simp only [geocode_address]
    exact_mod_cast hlng.2
  · exact ⟨round ((25 + ((sha_slices A.toLower).1 : ℚ) / 4294967295 * 24) * 1000000),
      by simp only [geocode_address, round6]⟩
  · exact ⟨round ((-125 + ((sha_slices A.toLower).2 : ℚ) / 4294967295 * 58) * 1000000),
      by simp only [geocode_address, round6]⟩

/-- C7 witness: the trivial hash-slice function satisfies the 32-bit bound
and geocoding the empty string produces an in-range coordinate. -/
theorem geocode_address_contract_witness :
    (∀ s, (zeroSha s).1 ≤ 0xFFFFFFFF ∧ (zeroSha s).2 ≤ 0xFFFFFFFF)
    ∧ (25 ≤ (geocode_address zeroSha "").latitude
        ∧ (geocode_address zeroSha "").latitude ≤ 49
        ∧ -125 ≤ (geocode_address zeroSha "").longitude
        ∧ (geocode_address zeroSha "").longitude ≤ -67) :=
  have hsha : ∀ s, (zeroSha s).1 ≤ 0xFFFFFFFF ∧ (zeroSha s).2 ≤ 0xFFFFFFFF :=
    fun _ => ⟨Nat.zero_le _, Nat.zero_le _⟩
  have h := geocode_address_contract zeroSha hsha ""
  ⟨hsha, h.2.2.1, h.2.2.2.1, h.2.2.2.2.1, h.2.2.2.2.2.1⟩

/-! ### Branch lemmas for `create_order` -/

/-- The payment call inside `create_order` (whose description mentions the
looked-up customer's id) coincides with `request_payment`: the gateway
ignores the description. -/
theorem inner_payment_eq (fresh : String) (db : Database) (req : CreateOrderRequest)
    (cid : Nat) :
    process_payment req.credit_card.number
      (order_total db (request_product_ids req) req.items)
      (payment_description cid req.items.length) fresh
    = request_payment fresh db req := rfl

/-- A failed charge always carries a non-empty reason string. -/
theorem process_payment_failure_message (card : String) (amount : ℚ) (desc fresh : String)
    (h : (process_payment card amount desc fresh).success = false) :
    ∃ m, (process_payment card amount desc fresh).error_message = some m ∧ m ≠ "" := by
  by_cases h1 : (card.isEmpty || decide (card.length < 13)) = true
  · refine ⟨"Invalid card number", ?_, by decide⟩
    simp [process_payment, h1]
  · rw [Bool.not_eq_true] at h1
    by_cases h2 : amount ≤ 0
    · refine ⟨"Invalid amount", ?_, by decide⟩
      simp [process_payment, h1, h2]
    · by_cases h3 : (card.data.head? == some '0') = true
      · refine ⟨"Card declined by issuer", ?_, by decide⟩
        simp [process_payment, h1, h2, h3]
      · rw [Bool.not_eq_true] at h3
        exfalso
        simp [process_payment, h1, h2, h3] at h

theorem create_order_customer_branch (dist : ℚ → ℚ → ℚ → ℚ → ℚ)
    (sha : String → Nat × Nat) (fresh : String) (db : Database) (req : CreateOrderRequest)
    (hc : customer_lookup db req = none) :
    create_order dist sha fresh db req = (.error (.customerNotFound req.customer_id), db) := by
  simp only [create_order, hc]

theorem create_order_products_branch (dist : ℚ → ℚ → ℚ → ℚ → ℚ)
    (sha : String → Nat × Nat) (fresh : String) (db : Database) (req : CreateOrderRequest)
    (c : Customer) (hc : customer_lookup db req = some c)
    (hm : missing_products db req ≠ []) :
    create_order dist sha fresh db req
      = (.error (.productsNotFound (missing_products db req)), db) := by
  have hne : (missing_products db req).isEmpty = false := by
    rw [List.isEmpty_eq_false_iff_exists_mem]
    exact List.exists_mem_of_ne_nil _ hm
  simp only [create_order, hc, hne, Bool.false_eq_true, if_false]

theorem create_order_warehouse_branch (dist : ℚ → ℚ → ℚ → ℚ → ℚ)
    (sha : String → Nat × Nat) (fresh : String) (db : Database) (req : CreateOrderRequest)
    (c : Customer) (hc : customer_lookup db req = some c)
    (hm : missing_products db req = [])
    (hw : selected_warehouse dist sha db req = none) :
    create_order dist sha fresh db req = (.error .noWarehouseAvailable, db) := by
  simp only [create_order, hc, hm, List.isEmpty_nil, if_true, hw]

theorem create_order_payment_branch (dist : ℚ → ℚ → ℚ → ℚ → ℚ)
    (sha : String → Nat × Nat) (fresh : String) (db : Database) (req : CreateOrderRequest)
    (c : Customer) (w : Warehouse) (hc : customer_lookup db req = some c)
    (hm : missing_products db req = [])
    (hw : selected_warehouse dist sha db req = some w)
    (hp : (request_payment fresh db req).success = false) :
    ∃ m, (request_payment fresh db req).error_message = some m
      ∧ create_order dist sha fresh db req = (.error (.paymentFailed m), db) := by
  obtain ⟨m, hmsg, hmne⟩ := process_payment_failure_message req.credit_card.number
    (order_total db (request_product_ids req) req.items)
    (payment_description req.customer_id req.items.length) fresh hp
  rw [inner_payment_eq fresh db req req.customer_id] at hmsg
  refine ⟨m, hmsg, ?_⟩
  simp only [create_order, hc, hm, List.isEmpty_nil, if_true, hw,
    inner_payment_eq fresh db req c.id, hp, Bool.false_eq_true, if_false, hmsg]
  simp [hmne]

/-- The success branch of `create_order`: the exact rows written. -/
theorem create_order_success_branch (dist : ℚ → ℚ → ℚ → ℚ → ℚ)
    (sha : String → Nat × Nat) (fresh : String) (db : Database) (req : CreateOrderRequest)
    (c : Customer) (w : Warehouse) (hc : customer_lookup db req = some c)
    (hm : missing_products db req = [])
    (hw : selected_warehouse dist sha db req = some w)
    (hp : (request_payment fresh db req).success = true) :
    create_order dist sha fresh db req =
      (.ok
        ({ id := db.orders.length + 1
           customer_id := req.customer_id
           warehouse_id := w.id
           shipping_address := req.shipping_address.to_string
           shipping_lat := (geocode_address sha req.shipping_address.to_string).latitude
           shipping_lng := (geocode_address sha req.shipping_address.to_string).longitude
           total_amount := order_total db (request_product_ids req) req.items
           payment_id := (request_payment fresh db req).payment_id.getD ""
           status := "confirmed" },
         req.items.enum.map (fun pr =>
          { id := db.order_items.length + pr.1 + 1
            order_id := db.orders.length + 1
            product_id := pr.2.product_id
            quantity := pr.2.quantity
            unit_price := ((products_map db (request_product_ids req) pr.2.product_id).map
              Product.price).getD 0 })),
       { db with
          orders := db.orders ++
            [{ id := db.orders.length + 1
               customer_id := req.customer_id
               warehouse_id := w.id
               shipping_address := req.shipping_address.to_string
               shipping_lat := (geocode_address sha req.shipping_address.to_string).latitude
               shipping_lng := (geocode_address sha req.shipping_address.to_string).longitude
               total_amount := order_total db (request_product_ids req) req.items
               payment_id := (request_payment fresh db req).payment_id.getD ""
               status := "confirmed" }]
          order_items := db.order_items ++ req.items.enum.map (fun pr =>
            { id := db.order_items.length + pr.1 + 1
              order_id := db.orders.length + 1
              product_id := pr.2.product_id
              quantity := pr.2.quantity
              unit_price := ((products_map db (request_product_ids req) pr.2.product_id).map
                Product.price).getD 0 }) }) := by
  simp only [create_order, hc, hm, List.isEmpty_nil, if_true, hw,
    inner_payment_eq fresh db req c.id, hp, if_true]

/-- `find?` commutes with a filter whose predicate is implied by the
search predicate. -/
theorem find?_filter_of_imp {α : Type} (l : List α) (p q : α → Bool)
    (h : ∀ x, p x = true → q x = true) : (l.filter q).find? p = l.find? p := by
  induction l with
  | nil => rfl
  | cons a as ih =>
    by_cases hp : p a = true
    · rw [List.filter_cons_of_pos (h a hp), List.find?_cons_of_pos _ hp,
        List.find?_cons_of_pos _ hp]
    · by_cases hq : q a = true
      · rw [List.filter_cons_of_pos hq, List.find?_cons_of_neg _ hp,
          List.find?_cons_of_neg _ hp, ih]
      · rw [List.filter_cons_of_neg (by simpa using hq), ih, List.find?_cons_of_neg _ hp]

/-- For a requested id, the dict built over the filtered product query is
the same lookup as a direct search of the products table. -/
theorem products_map_eq_find? (db : Database) (pids : List Nat) (pid : Nat)
    (h : pid ∈ pids) :
    products_map db pids pid = db.products.find? (fun p => p.id == pid) := by
  rw [products_map]
  apply find?_filter_of_imp
  intro x hx
  have hxid : x.id = pid := by simpa using hx
  simp [hxid, h]

/-- The missing-product list is the filter of the requested ids whose
direct table lookup fails. -/
theorem missing_products_eq (db : Database) (req : CreateOrderRequest) :
    missing_products db req = (request_product_ids req).filter (fun pid =>
      (db.products.find? (fun p => p.id == pid)).isNone) := by
  rw [missing_products]
  apply List.filter_congr
  intro pid hmem
  rw [products_map_eq_find? db _ pid hmem]

/-! ### C3 — error taxonomy of `create_order` -/

/-- C3: `create_order` fails with exactly one of four errors determined by
the first failing step in a fixed order: `customerNotFound` iff the
customer lookup fails; otherwise `productsNotFound`, carrying every
missing requested id (the filter of all ids whose table lookup fails), iff
any requested id is unmatched; otherwise `noWarehouseAvailable` iff the
selector returns no warehouse; otherwise `paymentFailed`, carrying the
gateway's error reason, iff the charge fails; otherwise an order is
returned. -/
theorem create_order_error_taxonomy (dist : ℚ → ℚ → ℚ → ℚ → ℚ)
    (sha : String → Nat × Nat) (fresh : String) (db : Database) (req : CreateOrderRequest) :
    ((create_order dist sha fresh db req).1 = .error (.customerNotFound req.customer_id)
      ↔ customer_lookup db req = none)
  ∧ (customer_lookup db req = none ↔ ∀ c ∈ db.customers, c.id ≠ req.customer_id)
  ∧ ((∃ m, (create_order dist sha fresh db req).1 = .error (.productsNotFound m))
      ↔ customer_lookup db req ≠ none ∧ missing_products db req ≠ [])
  ∧ (∀ m, (create_order dist sha fresh db req).1 = .error (.productsNotFound m) →
      m = missing_products db req)
  ∧ missing_products db req = (request_product_ids req).filter (fun pid =>
      (db.products.find? (fun p => p.id == pid)).isNone)
  ∧ ((create_order dist sha fresh db req).1 = .error .noWarehouseAvailable
      ↔ customer_lookup db req ≠ none ∧ missing_products db req = []
        ∧ selected_warehouse dist sha db req = none)
  ∧ ((∃ msg, (create_order dist sha fresh db req).1 = .error (.paymentFailed msg))
      ↔ customer_lookup db req ≠ none ∧ missing_products db req = []
        ∧ selected_warehouse dist sha db req ≠ none
        ∧ (request_payment fresh db req).success = false)
  ∧ (∀ msg, (create_order dist sha fresh db req).1 = .error (.paymentFailed msg) →
      (request_payment fresh db req).error_message = some msg)
  ∧ ((∃ r, (create_order dist sha fresh db req).1 = .ok r)
      ↔ customer_lookup db req ≠ none ∧ missing_products db req = []
        ∧ selected_warehouse dist sha db req ≠ none
        ∧ (request_payment fresh db req).success = true) := by
  have hmiss := missing_products_eq db req
  have hcchar : customer_lookup db req = none ↔ ∀ c ∈ db.customers, c.id ≠ req.customer_id := by
    rw [customer_lookup, List.find?_eq_none]
    simp
  by_cases hc : customer_lookup db req = none
  · rw [create_order_customer_branch dist sha fresh db req hc]
    refine ⟨by simp [hc], hcchar, ?_, ?_, hmiss, ?_, ?_, ?_, ?_⟩ <;> simp [hc]
  · obtain ⟨c, hc⟩ := Option.ne_none_iff_exists'.mp hc
    by_cases hm : missing_products db req = []
    · by_cases hw : selected_warehouse dist sha db req = none
      · rw [create_order_warehouse_branch dist sha fresh db req c hc hm hw]
        refine ⟨by simp [hc], hcchar, ?_, ?_, hmiss, ?_, ?_, ?_, ?_⟩ <;> simp [hc, hm, hw]
      · obtain ⟨w, hw⟩ := Option.ne_none_iff_exists'.mp hw
        by_cases hp : (request_payment fresh db req).success = true
        · rw [create_order_success_branch dist sha fresh db req c w hc hm hw hp]
          refine ⟨by simp [hc], hcchar, ?_, ?_, hmiss, ?_, ?_, ?_, ?_⟩ <;>
            simp [hc, hm, hw, hp]
        · rw [Bool.not_eq_true] at hp
          obtain ⟨m, hmsg, heq⟩ :=
            create_order_payment_branch dist sha fresh db req c w hc hm hw hp
          rw [heq]
          refine ⟨by simp [hc], hcchar, ?_, ?_, hmiss, ?_, ?_, ?_, ?_⟩
          · simp [hc, hm]
          · simp
          · simp [hw]
          · simp [hc, hm, hw, hp]
          · intro msg hmsg2
            simp only [Except.error.injEq, OrderServiceError.paymentFailed.injEq] at hmsg2
            rw [← hmsg2]
            exact hmsg
          · simp [hp]
    · rw [create_order_products_branch dist sha fresh db req c hc hm]
      refine ⟨by simp [hc], hcchar, ?_, ?_, hmiss, ?_, ?_, ?_, ?_⟩ <;> simp [hc, hm]

/-- A request whose customer id matches no row of `exampleDb`. -/
def exampleBadCustomerRequest : CreateOrderRequest :=
  { customer_id := 99, shipping_address := exampleAddress, credit_card := exampleCard
    items := [{ product_id := 1, quantity := 2 }] }

/-- C3 witness: on a store without customer 99 the outcome is exactly
`customerNotFound 99`. -/
theorem create_order_error_taxonomy_witness :
    (create_order zeroDist zeroSha "abc" exampleDb exampleBadCustomerRequest).1
      = .error (.customerNotFound 99) :=
  (create_order_error_taxonomy zeroDist zeroSha "abc" exampleDb
    exampleBadCustomerRequest).1.mpr (by decide)

/-! ### C4 — failure atomicity of `create_order` -/

/-- C4: on every failure the store is returned unchanged (no Order row and
no OrderItem row is written), and a new Order row (resp. OrderItem row)
exists only when the payment succeeded and the selector produced a
warehouse — which the new order references. -/
theorem create_order_atomicity (dist : ℚ → ℚ → ℚ → ℚ → ℚ) (sha : String → Nat × Nat)
    (fresh : String) (db : Database) (req : CreateOrderRequest) :
    (∀ e, (create_order dist sha fresh db req).1 = .error e →
      (create_order dist sha fresh db req).2 = db)
  ∧ (∀ o, o ∈ (create_order dist sha fresh db req).2.orders → o ∉ db.orders →
      (request_payment fresh db req).success = true
      ∧ ∃ w, selected_warehouse dist sha db req = some w ∧ o.warehouse_id = w.id)
  ∧ (∀ it, it ∈ (create_order dist sha fresh db req).2.order_items → it ∉ db.order_items →
      (request_payment fresh db req).success = true
      ∧ ∃ w, selected_warehouse dist sha db req = some w) := by
  by_cases hc : customer_lookup db req = none
  · rw [create_order_customer_branch dist sha fresh db req hc]
    exact ⟨fun _ _ => rfl, fun o ho hno => absurd ho hno, fun it hit hnit => absurd hit hnit⟩
  · obtain ⟨c, hc⟩ := Option.ne_none_iff_exists'.mp hc
    by_cases hm : missing_products db req = []
    · by_cases hw : selected_warehouse dist sha db req = none
      · rw [create_order_warehouse_branch dist sha fresh db req c hc hm hw]
        exact ⟨fun _ _ => rfl, fun o ho hno => absurd ho hno, fun it hit hnit => absurd hit hnit⟩
      · obtain ⟨w, hw⟩ := Option.ne_none_iff_exists'.mp hw
        by_cases hp : (request_payment fresh db req).success = true
        · rw [create_order_success_branch dist sha fresh db req c w hc hm hw hp]
          refine ⟨?_, ?_, ?_⟩
          · intro e he
            exact absurd he (by simp)
          · intro o ho hno
            refine ⟨hp, w, hw, ?_⟩
            rcases List.mem_append.mp ho with h | h
            · exact absurd h hno
            · have heq : o = _ := List.mem_singleton.mp h
              rw [heq]
          · intro it hit hnit
            exact ⟨hp, w, hw⟩
        · rw [Bool.not_eq_true] at hp
          obtain ⟨m, _, heq⟩ := create_order_payment_branch dist sha fresh db req c w hc hm hw hp
          rw [heq]
          exact ⟨fun _ _ => rfl, fun o ho hno => absurd ho hno, fun it hit hnit => absurd hit hnit⟩
    · rw [create_order_products_branch dist sha fresh db req c hc hm]
      exact ⟨fun _ _ => rfl, fun o ho hno => absurd ho hno, fun it hit hnit => absurd hit hnit⟩

/-- C4 witness: a declined card (scenario 4's "0123456789012") leaves the
store exactly as it was. -/
theorem create_order_atomicity_witness :
    ((create_order zeroDist zeroSha "abc" exampleDb
        { exampleRequest with credit_card := { exampleCard with number := "0123456789012" } }).1
      = .error (.paymentFailed "Card declined by issuer"))
    ∧ (create_order zeroDist zeroSha "abc" exampleDb
        { exampleRequest with credit_card := { exampleCard with number := "0123456789012" } }).2
      = exampleDb :=
  have h : (create_order zeroDist zeroSha "abc" exampleDb
      { exampleRequest with credit_card := { exampleCard with number := "0123456789012" } }).1
      = .error (.paymentFailed "Card declined by issuer") := by with_unfolding_all decide
  ⟨h, (create_order_atomicity zeroDist zeroSha "abc" exampleDb
      { exampleRequest with credit_card := { exampleCard with number := "0123456789012" } }).1
    (.paymentFailed "Card declined by issuer") h⟩

/-! ### C5 — price snapshot -/

/-- C5: a created order's total is the sum over the request's line items of
(unit price at order time × quantity), each OrderItem row stores that
snapshot price, and mutating any Product price afterwards leaves the
`orders` and `order_items` tables (hence the stored total and snapshot
prices) untouched. -/
theorem create_order_price_snapshot (dist : ℚ → ℚ → ℚ → ℚ → ℚ) (sha : String → Nat × Nat)
    (fresh : String) (db : Database) (req : CreateOrderRequest) (o : Order)
    (its : List OrderItem)
    (h : (create_order dist sha fresh db req).1 = .ok (o, its)) :
    o.total_amount = order_total db (request_product_ids req) req.items
  ∧ o.total_amount = (req.items.map (fun i =>
      ((db.products.find? (fun p => p.id == i.product_id)).map Product.price).getD 0
        * (i.quantity : ℚ))).sum
  ∧ its.map OrderItem.unit_price = req.items.map (fun i =>
      ((db.products.find? (fun p => p.id == i.product_id)).map Product.price).getD 0)
  ∧ (∀ pid new_price,
      (set_product_price ((create_order dist sha fresh db req).2) pid new_price).orders
        = ((create_order dist sha fresh db req).2).orders
      ∧ (set_product_price ((create_order dist sha fresh db req).2) pid new_price).order_items
        = ((create_order dist sha fresh db req).2).order_items) := by
  have henum : ∀ {β : Type} (g : OrderItemRequest → β),
      req.items.enum.map (fun pr => g pr.2) = req.items.map g := by
    intro β g
    calc req.items.enum.map (fun pr => g pr.2)
        = (req.items.enum.map Prod.snd).map g := by rw [List.map_map]; rfl
    _ = req.items.map g := by rw [List.enum_map_snd]
  have hpm : ∀ i ∈ req.items,
      products_map db (request_product_ids req) i.product_id
        = db.products.find? (fun p => p.id == i.product_id) := by
    intro i hi
    exact products_map_eq_find? db _ _ (List.mem_map_of_mem OrderItemRequest.product_id hi)
  by_cases hc : customer_lookup db req = none
  · rw [create_order_customer_branch dist sha fresh db req hc] at h
    exact absurd h (by simp)
  · obtain ⟨c, hc⟩ := Option.ne_none_iff_exists'.mp hc
    by_cases hm : missing_products db req = []
    · by_cases hw : selected_warehouse dist sha db req = none
      · rw [create_order_warehouse_branch dist sha fresh db req c hc hm hw] at h
        exact absurd h (by simp)
      · obtain ⟨w, hw⟩ := Option.ne_none_iff_exists'.mp hw
        by_cases hp : (request_payment fresh db req).success = true
        · rw [create_order_success_branch dist sha fresh db req c w hc hm hw hp] at h
          simp only [Except.ok.injEq, Prod.mk.injEq] at h
          obtain ⟨ho, hits⟩ := h
          refine ⟨?_, ?_, ?_, fun pid np => ⟨rfl, rfl⟩⟩
          · rw [← ho]
          · rw [← ho, order_total]
            show (req.items.map _).sum = _
            congr 1
            apply List.map_congr_left
            intro i hi
            rw [hpm i hi]
          · rw [← hits, List.map_map]
            show req.items.enum.map (fun pr =>
              ((products_map db (request_product_ids req) pr.2.product_id).map
                Product.price).getD 0) = _
            rw [henum (fun i =>
              ((products_map db (request_product_ids req) i.product_id).map
                Product.price).getD 0)]
            apply List.map_congr_left
            intro i hi
            rw [hpm i hi]
        · rw [Bool.not_eq_true] at hp
          obtain ⟨m, _, heq⟩ := create_order_payment_branch dist sha fresh db req c w hc hm hw hp
          rw [heq] at h
          exact absurd h (by simp)
    · rw [create_order_products_branch dist sha fresh db req c hc hm] at h
      exact absurd h (by simp)

/-- The order and items created by the canonical successful request. -/
def exampleOrder : Order :=
  { id := 1, customer_id := 1, warehouse_id := 1
    shipping_address := "1 Main St, Springfield, IL 62701, USA"
    shipping_lat := 25, shipping_lng := -125
    total_amount := 10, payment_id := "pay_abc", status := "confirmed" }

def exampleItems : List OrderItem :=
  [{ id := 1, order_id := 1, product_id := 1, quantity := 2, unit_price := 5 }]

/-- C5 witness: the canonical successful order has total 5 × 2 = 10 and the
snapshot price 5 stored on its single item. -/
theorem create_order_price_snapshot_witness :
    ((create_order zeroDist zeroSha "abc" exampleDb exampleRequest).1
        = .ok (exampleOrder, exampleItems))
    ∧ exampleOrder.total_amount
        = order_total exampleDb (request_product_ids exampleRequest) exampleRequest.items :=
  have h : (create_order zeroDist zeroSha "abc" exampleDb exampleRequest).1
      = .ok (exampleOrder, exampleItems) := by with_unfolding_all decide
  ⟨h, (create_order_price_snapshot zeroDist zeroSha "abc" exampleDb exampleRequest
      exampleOrder exampleItems h).1⟩

/-! ### C10 — zero-priced orders always fail at the payment step -/

/-- A copy of `exampleDb` whose only product costs 0. -/
def zeroPriceDb : Database :=
  { exampleDb with products := [{ id := 1, name := "Widget", price := 0 }] }

/-- C10 counterexample: the zero-priced order fails with the reason string
"Invalid amount", not the claim's "invalid amount". -/
theorem zero_priced_reason_counterexample :
    (create_order zeroDist zeroSha "abc" zeroPriceDb exampleRequest).1
        = .error (.paymentFailed "Invalid amount")
    ∧ (create_order zeroDist zeroSha "abc" zeroPriceDb exampleRequest).1
        ≠ .error (.paymentFailed "invalid amount") := by
  exact ⟨by with_unfolding_all decide, by with_unfolding_all decide⟩

/-- C10 (amended): when every referenced product has price 0, the computed
total is 0, so `create_order` always fails with `paymentFailed` carrying
the "Invalid amount" reason — even with an existing customer, no missing
product, a qualifying warehouse, and a well-formed card that does not
start with the digit 0. -/
theorem zero_priced_order_fails_invalid_amount (dist : ℚ → ℚ → ℚ → ℚ → ℚ)
    (sha : String → Nat × Nat) (fresh : String) (db : Database) (req : CreateOrderRequest)
    (hc : customer_lookup db req ≠ none)
    (hm : missing_products db req = [])
    (hw : selected_warehouse dist sha db req ≠ none)
    (h13 : 13 ≤ req.credit_card.number.length)
    (h0 : req.credit_card.number.data.head? ≠ some '0')
    (hzero : ∀ i ∈ req.items,
      ((products_map db (request_product_ids req) i.product_id).map Product.price).getD 0
        = 0) :
    (create_order dist sha fresh db req).1 = .error (.paymentFailed "Invalid amount") := by
  obtain ⟨c, hc⟩ := Option.ne_none_iff_exists'.mp hc
  obtain ⟨w, hw⟩ := Option.ne_none_iff_exists'.mp hw
  have h0' := h0
  have htot : order_total db (request_product_ids req) req.items = 0 := by
    rw [order_total]
    have hz : req.items.map (fun item =>
        ((products_map db (request_product_ids req) item.product_id).map
          Product.price).getD 0 * (item.quantity : ℚ))
        = req.items.map (fun _ => (0:ℚ)) := by
      apply List.map_congr_left
      intro a ha
      rw [hzero a ha, zero_mul]
    rw [hz]
    simp
  have hpay : request_payment fresh db req
      = { success := false, payment_id := none, error_message := some "Invalid amount" } := by
    rw [request_payment, htot]
    exact (process_payment_check_order _ _ _ _).2.1 h13 le_rfl
  have hp : (request_payment fresh db req).success = false := by rw [hpay]
  obtain ⟨m, hmsg, heq⟩ := create_order_payment_branch dist sha fresh db req c w hc hm hw hp
  rw [hpay] at hmsg
  have hmval : m = "Invalid amount" := by
    simpa using hmsg.symm
  rw [heq, hmval]

/-- C10 witness: the concrete zero-priced store satisfies every hypothesis
and the call fails with the Invalid-amount payment error. -/
theorem zero_priced_order_fails_invalid_amount_witness :
    (customer_lookup zeroPriceDb exampleRequest ≠ none
      ∧ missing_products zeroPriceDb exampleRequest = []
      ∧ selected_warehouse zeroDist zeroSha zeroPriceDb exampleRequest ≠ none
      ∧ 13 ≤ exampleRequest.credit_card.number.length
      ∧ exampleRequest.credit_card.number.data.head? ≠ some '0')
    ∧ (create_order zeroDist zeroSha "abc" zeroPriceDb exampleRequest).1
        = .error (.paymentFailed "Invalid amount") :=
  ⟨⟨by decide, by decide, by with_unfolding_all decide, by decide, by decide⟩,
    zero_priced_order_fails_invalid_amount zeroDist zeroSha "abc" zeroPriceDb exampleRequest
      (by decide) (by decide) (by with_unfolding_all decide) (by decide) (by decide)
      (by decide)⟩

/-! ### Association-list lemmas for the grouping dict of
`find_best_warehouse` -/

theorem dictGet_dictAppend_same (d : List (Nat × List Nat)) (k v : Nat) :
    dictGet (dictAppend d k v) k = dictGet d k ++ [v] := by
  induction d with
  | nil => simp [dictAppend, dictGet, List.find?]
  | cons e es ih =>
    by_cases he : e.1 = k
    · simp [dictAppend, dictGet, List.find?, he]
    · have hbe : (e.1 == k) = false := beq_eq_false_iff_ne.mpr he
      simp only [dictAppend, hbe, Bool.false_eq_true, if_false]
      simp only [dictGet, List.find?, hbe] at ih ⊢
      exact ih

theorem dictGet_dictAppend_ne (d : List (Nat × List Nat)) (k v k2 : Nat) (h : k2 ≠ k) :
    dictGet (dictAppend d k v) k2 = dictGet d k2 := by
  induction d with
  | nil =>
    have : (k == k2) = false := beq_eq_false_iff_ne.mpr (Ne.symm h)
    simp [dictAppend, dictGet, List.find?, this]
  | cons e es ih =>
    by_cases he : e.1 = k
    · have hne : (e.1 == k2) = false := beq_eq_false_iff_ne.mpr (he ▸ Ne.symm h)
      simp [dictAppend, dictGet, List.find?, he, hne,
        beq_eq_false_iff_ne.mpr (Ne.symm h)]
    · have hbe : (e.1 == k) = false := beq_eq_false_iff_ne.mpr he
      simp only [dictAppend, hbe, Bool.false_eq_true, if_false]
      by_cases he2 : e.1 = k2
      · simp [dictGet, List.find?, he2]
      · have hbe2 : (e.1 == k2) = false := beq_eq_false_iff_ne.mpr he2
        simp only [dictGet, List.find?, hbe2] at ih ⊢
        exact ih

theorem mem_keys_dictAppend (d : List (Nat × List Nat)) (k v k2 : Nat)
    (h : k2 ∈ (dictAppend d k v).map Prod.fst) : k2 ∈ d.map Prod.fst ∨ k2 = k := by
  induction d with
  | nil =>
    simp [dictAppend] at h
    exact Or.inr h
  | cons e es ih =>
    by_cases he : (e.1 == k) = true
    · simp only [dictAppend, he, if_true] at h
      simpa using Or.inl (by simpa using h)
    · simp only [dictAppend, he, Bool.false_eq_true, if_false] at h
      rcases List.mem_map.mp h with ⟨p, hp, hpk⟩
      rcases List.mem_cons.mp hp with rfl | hp
      · exact Or.inl (by simp [hpk.symm])
      · rcases ih (hpk ▸ List.mem_map_of_mem Prod.fst hp) with hl | hr
        · exact Or.inl (List.mem_map.mpr (by
            rcases List.mem_map.mp hl with ⟨p2, hp2, hk2⟩
            exact ⟨p2, List.mem_cons_of_mem _ hp2, hk2⟩))
        · exact Or.inr hr

theorem nodup_keys_dictAppend (d : List (Nat × List Nat)) (k v : Nat)
    (h : (d.map Prod.fst).Nodup) : ((dictAppend d k v).map Prod.fst).Nodup := by
  induction d with
  | nil => simp [dictAppend]
  | cons e es ih =>
    rw [List.map_cons, List.nodup_cons] at h
    by_cases he : (e.1 == k) = true
    · simpa [dictAppend, he, List.nodup_cons] using h
    · simp only [dictAppend, he, Bool.false_eq_true, if_false, List.map_cons, List.nodup_cons]
      refine ⟨fun hmem => ?_, ih h.2⟩
      rcases mem_keys_dictAppend es k v e.1 hmem with hl | hr
      · exact h.1 hl
      · exact he (by simp [hr])

theorem dictGet_of_mem (d : List (Nat × List Nat)) (e : Nat × List Nat)
    (hnd : (d.map Prod.fst).Nodup) (he : e ∈ d) : dictGet d e.1 = e.2 := by
  induction d with
  | nil => cases he
  | cons a as ih =>
    rw [List.map_cons, List.nodup_cons] at hnd
    rcases List.mem_cons.mp he with rfl | he
    · simp [dictGet, List.find?]
    · have hne : (a.1 == e.1) = false := beq_eq_false_iff_ne.mpr
        (fun hae => hnd.1 (hae ▸ List.mem_map_of_mem Prod.fst he))
      simp only [dictGet, List.find?, hne]
      exact ih hnd.2 he

theorem mem_of_dictGet_ne_nil (d : List (Nat × List Nat)) (k : Nat)
    (h : dictGet d k ≠ []) : (k, dictGet d k) ∈ d := by
  rw [dictGet] at h ⊢
  cases hf : d.find? (fun e => e.1 == k) with
  | none => rw [hf] at h; exact absurd rfl h
  | some e =>
    have hk : e.1 = k := by simpa using List.find?_some hf
    have hmem := List.mem_of_find?_eq_some hf
    show (k, e.2) ∈ d
    rw [← hk]
    exact hmem

/-- `find?` finds a designated element when it is the unique one
satisfying the predicate. -/
theorem find?_eq_some_of_unique {α : Type} (l : List α) (p : α → Bool) (x : α)
    (hmem : x ∈ l) (hx : p x = true) (huniq : ∀ y ∈ l, p y = true → y = x) :
    l.find? p = some x := by
  induction l with
  | nil => cases hmem
  | cons a as ih =>
    by_cases ha : p a = true
    · rw [List.find?_cons_of_pos _ ha, huniq a (List.mem_cons_self a as) ha]
    · rw [List.find?_cons_of_neg _ ha]
      rcases List.mem_cons.mp hmem with rfl | hmem2
      · exact absurd hx ha
      · exact ih hmem2 (fun y hy hpy => huniq y (List.mem_cons_of_mem _ hy) hpy)

/-- Under the inventory primary key, the re-query of the grouping loop
returns the row itself. -/
theorem inventory_find?_self (db : Database) (r : Inventory)
    (hinv : db.inventory.Pairwise (fun a b =>
      ¬(a.warehouse_id = b.warehouse_id ∧ a.product_id = b.product_id)))
    (hr : r ∈ db.inventory) :
    db.inventory.find? (fun i =>
      i.warehouse_id == r.warehouse_id && i.product_id == r.product_id) = some r := by
  apply find?_eq_some_of_unique _ _ r hr (by simp)
  intro y hy hpy
  simp only [Bool.and_eq_true, beq_iff_eq] at hpy
  by_contra hne
  have hsymm : Symmetric (fun a b : Inventory =>
      ¬(a.warehouse_id = b.warehouse_id ∧ a.product_id = b.product_id)) := by
    intro a b hab hba
    exact hab ⟨hba.1.symm, hba.2.symm⟩
  exact (List.Pairwise.forall hsymm hinv hy hr hne) ⟨hpy.1, hpy.2⟩

/-- Under the inventory primary key, the quantity test of the grouping
loop checks the row's own quantity. -/
theorem row_passes_iff (db : Database) (required : Nat → Nat) (r : Inventory)
    (hinv : db.inventory.Pairwise (fun a b =>
      ¬(a.warehouse_id = b.warehouse_id ∧ a.product_id = b.product_id)))
    (hr : r ∈ db.inventory) :
    row_passes db required r = true ↔ required r.product_id ≤ r.quantity := by
  rw [row_passes, inventory_find?_self db r hinv hr]
  simp

/-- With pairwise-distinct product ids, the dict-comprehension lookup of a
requested pair returns that pair's quantity. -/
theorem required_quantities_eq_of_nodup (items : List (Nat × Nat)) (p q : Nat)
    (hnodup : (items.map Prod.fst).Nodup) (hmem : (p, q) ∈ items) :
    required_quantities items p = q := by
  have hpair : items.Pairwise (fun a b => a.1 ≠ b.1) := List.pairwise_map.mp hnodup
  have hrev : items.reverse.find? (fun it => it.1 == p) = some (p, q) := by
    apply find?_eq_some_of_unique _ _ (p, q) (List.mem_reverse.mpr hmem) (by simp)
    intro y hy hpy
    have hy2 : y ∈ items := List.mem_reverse.mp hy
    have hyp : y.1 = p := by simpa using hpy
    by_contra hne
    have hsymm : Symmetric (fun a b : Nat × Nat => a.1 ≠ b.1) :=
      fun a b hab => hab.symm
    exact (List.Pairwise.forall hsymm hpair hy2 hmem hne) (by rw [hyp])
  rw [required_quantities, hrev]
  rfl

/-- The grouping fold appends, per warehouse key, exactly the product ids
of the scanned rows that carry that key and pass the quantity check. -/
theorem dictGet_foldl_build (db : Database) (required : Nat → Nat) :
    ∀ (rows : List Inventory) (d : List (Nat × List Nat)) (k : Nat),
    dictGet (rows.foldl (build_step db required) d) k
      = dictGet d k ++ (rows.filter (fun r =>
          r.warehouse_id == k && row_passes db required r)).map Inventory.product_id := by
  intro rows
  induction rows with
  | nil => intro d k; simp
  | cons r rs ih =>
    intro d k
    rw [List.foldl_cons, ih]
    by_cases hpass : row_passes db required r = true
    · by_cases hk : r.warehouse_id = k
      · rw [List.filter_cons_of_pos (by simp [hk, hpass])]
        simp only [build_step, hpass, if_true, hk, List.map_cons]
        rw [dictGet_dictAppend_same, List.append_assoc]
        rfl
      · rw [List.filter_cons_of_neg (by simp [hk])]
        simp only [build_step, hpass, if_true]
        rw [dictGet_dictAppend_ne _ _ _ _ (Ne.symm hk)]
    · rw [List.filter_cons_of_neg (by simp [hpass])]
      simp only [build_step, hpass, Bool.false_eq_true, if_false]

/-- The grouping fold keeps the dict keys pairwise distinct. -/
theorem nodup_keys_foldl_build (db : Database) (required : Nat → Nat) :
    ∀ (rows : List Inventory) (d : List (Nat × List Nat)),
    (d.map Prod.fst).Nodup →
    (((rows.foldl (build_step db required) d)).map Prod.fst).Nodup := by
  intro rows
  induction rows with
  | nil => intro d h; simpa using h
  | cons r rs ih =>
    intro d h
    rw [List.foldl_cons]
    apply ih
    rw [build_step]
    by_cases hpass : row_passes db required r = true
    · rw [if_pos hpass]
      exact nodup_keys_dictAppend d _ _ h
    · rw [if_neg hpass]
      exact h

/-- The value the grouping dict ends up holding for warehouse `wid`: the
product ids of the inventory rows of `wid` that are requested and stocked
in sufficient quantity. -/
theorem dictGet_build_eq (db : Database) (required : Nat → Nat) (pids : List Nat) (wid : Nat) :
    dictGet ((db.inventory.filter (fun inv => pids.contains inv.product_id)).foldl
        (build_step db required) []) wid
      = (db.inventory.filter (fun r =>
          (r.warehouse_id == wid && row_passes db required r)
            && pids.contains r.product_id)).map Inventory.product_id := by
  rw [dictGet_foldl_build, List.filter_filter]
  rfl

/-- The spec-side qualification predicate, in quantified form. -/
theorem warehouse_qualifies_iff (db : Database) (items : List (Nat × Nat)) (wid : Nat) :
    warehouse_qualifies db items wid = true
      ↔ ∀ pair ∈ items, ∃ r ∈ db.inventory,
          r.warehouse_id = wid ∧ r.product_id = pair.1 ∧ pair.2 ≤ r.quantity := by
  rw [warehouse_qualifies, List.all_eq_true]
  constructor
  · intro h pair hpair
    obtain ⟨r, hr, hcond⟩ := List.any_eq_true.mp (h pair hpair)
    simp only [Bool.and_eq_true, beq_iff_eq, decide_eq_true_eq] at hcond
    exact ⟨r, hr, hcond.1.1, hcond.1.2, hcond.2⟩
  · intro h pair hpair
    obtain ⟨r, hr, h1, h2, h3⟩ := h pair hpair
    exact List.any_eq_true.mpr ⟨r, hr, by simp [h1, h2, h3]⟩

/-- Key characterization: a warehouse id survives the count-based coverage
check of `find_best_warehouse` exactly when the warehouse qualifies in the
spec sense — provided the inventory keys are a primary key and the
requested product ids are pairwise distinct. -/
theorem qualifying_ids_mem_iff (db : Database) (items : List (Nat × Nat)) (wid : Nat)
    (hinv : db.inventory.Pairwise (fun a b =>
      ¬(a.warehouse_id = b.warehouse_id ∧ a.product_id = b.product_id)))
    (hnodup : (items.map Prod.fst).Nodup) (hne : items ≠ []) :
    wid ∈ (((db.inventory.filter (fun inv =>
        (items.map Prod.fst).contains inv.product_id)).foldl
          (build_step db (required_quantities items)) []).filter (fun e =>
            e.2.length == (items.map Prod.fst).length)).map Prod.fst
      ↔ warehouse_qualifies db items wid = true := by
  have hkeys := nodup_keys_foldl_build db (required_quantities items)
    (db.inventory.filter (fun inv => (items.map Prod.fst).contains inv.product_id)) []
    (by simp)
  have hget := dictGet_build_eq db (required_quantities items) (items.map Prod.fst) wid
  have hfilt_nodup : (db.inventory.filter (fun r =>
      (r.warehouse_id == wid && row_passes db (required_quantities items) r)
        && (items.map Prod.fst).contains r.product_id)).Nodup := by
    refine List.Pairwise.imp ?_ (List.Pairwise.sublist (List.filter_sublist db.inventory) hinv)
    intro a b hab heq
    exact hab (by rw [heq]; exact ⟨rfl, rfl⟩)
  have hmap_nodup : ((db.inventory.filter (fun r =>
      (r.warehouse_id == wid && row_passes db (required_quantities items) r)
        && (items.map Prod.fst).contains r.product_id)).map Inventory.product_id).Nodup := by
    apply List.Nodup.map_on ?_ hfilt_nodup
    intro x hx y hy hxy
    have hxm := List.mem_filter.mp hx
    have hym := List.mem_filter.mp hy
    have hxw : x.warehouse_id = wid := by
      have := hxm.2
      simp only [Bool.and_eq_true, beq_iff_eq] at this
      exact this.1.1
    have hyw : y.warehouse_id = wid := by
      have := hym.2
      simp only [Bool.and_eq_true, beq_iff_eq] at this
      exact this.1.1
    by_contra hne2
    have hsymm : Symmetric (fun a b : Inventory =>
        ¬(a.warehouse_id = b.warehouse_id ∧ a.product_id = b.product_id)) := by
      intro a b hab hba
      exact hab ⟨hba.1.symm, hba.2.symm⟩
    exact (List.Pairwise.forall hsymm hinv hxm.1 hym.1 hne2) ⟨hxw.trans hyw.symm, hxy⟩
  have hmem_iff : ∀ p, p ∈ ((db.inventory.filter (fun r =>
      (r.warehouse_id == wid && row_passes db (required_quantities items) r)
        && (items.map Prod.fst).contains r.product_id)).map Inventory.product_id)
      ↔ ∃ r ∈ db.inventory, r.warehouse_id = wid ∧ r.product_id = p
          ∧ p ∈ items.map Prod.fst
          ∧ row_passes db (required_quantities items) r = true := by
    intro p
    simp only [List.mem_map, List.mem_filter, Bool.and_eq_true, beq_iff_eq]
    constructor
    · rintro ⟨r, ⟨hr, ⟨⟨hw, hpass⟩, hcont⟩⟩, rfl⟩
      exact ⟨r, hr, hw, rfl, by simpa using hcont, hpass⟩
    · rintro ⟨r, hr, hw, rfl, hmem, hpass⟩
      exact ⟨r, ⟨hr, ⟨⟨hw, hpass⟩, by simpa using hmem⟩⟩, rfl⟩
  have hsub : ((db.inventory.filter (fun r =>
      (r.warehouse_id == wid && row_passes db (required_quantities items) r)
        && (items.map Prod.fst).contains r.product_id)).map Inventory.product_id)
      ⊆ items.map Prod.fst := by
    intro p hp
    exact ((hmem_iff p).mp hp).choose_spec.2.2.2.1
  rw [warehouse_qualifies_iff]
  constructor
  · intro h
    obtain ⟨e, hef, hek⟩ := List.mem_map.mp h
    have hfm := List.mem_filter.mp hef
    have hlen : e.2.length = (items.map Prod.fst).length := by simpa using hfm.2
    have hgete : dictGet ((db.inventory.filter (fun inv =>
        (items.map Prod.fst).contains inv.product_id)).foldl
          (build_step db (required_quantities items)) []) wid = e.2 := by
      rw [← hek]
      exact dictGet_of_mem _ e hkeys hfm.1
    have hmapped_len : ((db.inventory.filter (fun r =>
        (r.warehouse_id == wid && row_passes db (required_quantities items) r)
          && (items.map Prod.fst).contains r.product_id)).map
            Inventory.product_id).length = (items.map Prod.fst).length := by
      rw [← hget, hgete, hlen]
    obtain ⟨l, hlp, hls⟩ := List.Nodup.subperm hmap_nodup hsub
    have hleq : l = items.map Prod.fst :=
      hls.eq_of_length (by rw [hlp.length_eq, hmapped_len])
    have hperm : (items.map Prod.fst).Perm ((db.inventory.filter (fun r =>
        (r.warehouse_id == wid && row_passes db (required_quantities items) r)
          && (items.map Prod.fst).contains r.product_id)).map Inventory.product_id) :=
      hleq ▸ hlp
    intro pair hpair
    have hp1 : pair.1 ∈ items.map Prod.fst := List.mem_map_of_mem Prod.fst hpair
    obtain ⟨r, hr, hw, hpid, _, hpass⟩ := (hmem_iff pair.1).mp (hperm.mem_iff.mp hp1)
    have hreq : required_quantities items pair.1 = pair.2 :=
      required_quantities_eq_of_nodup items pair.1 pair.2 hnodup hpair
    have hqty := (row_passes_iff db (required_quantities items) r hinv hr).mp hpass
    rw [hpid, hreq] at hqty
    exact ⟨r, hr, hw, hpid, hqty⟩
  · intro h
    have hpids_sub : items.map Prod.fst ⊆ ((db.inventory.filter (fun r =>
        (r.warehouse_id == wid && row_passes db (required_quantities items) r)
          && (items.map Prod.fst).contains r.product_id)).map Inventory.product_id) := by
      intro p hp
      obtain ⟨pair, hpair, hpeq⟩ := List.mem_map.mp hp
      obtain ⟨r, hr, hw, hpid, hqty⟩ := h pair hpair
      refine (hmem_iff p).mpr ⟨r, hr, hw, by rw [hpid, hpeq], hp, ?_⟩
      rw [row_passes_iff db (required_quantities items) r hinv hr, hpid, hpeq]
      rw [required_quantities_eq_of_nodup items pair.1 pair.2 hnodup hpair |>.symm] at hqty
      rw [← hpeq]
      exact hqty
    have hlen_le1 := (List.Nodup.subperm hmap_nodup hsub).length_le
    have hlen_le2 := (List.Nodup.subperm hnodup hpids_sub).length_le
    have hmapped_len : ((db.inventory.filter (fun r =>
        (r.warehouse_id == wid && row_passes db (required_quantities items) r)
          && (items.map Prod.fst).contains r.product_id)).map
            Inventory.product_id).length = (items.map Prod.fst).length :=
      Nat.le_antisymm hlen_le1 hlen_le2
    have hnnil : dictGet ((db.inventory.filter (fun inv =>
        (items.map Prod.fst).contains inv.product_id)).foldl
          (build_step db (required_quantities items)) []) wid ≠ [] := by
      rw [hget]
      intro hcon
      have : (items.map Prod.fst).length = 0 := by
        rw [← hmapped_len, hcon]
        rfl
      exact hne (by simpa using this)
    have hmem := mem_of_dictGet_ne_nil _ wid hnnil
    apply List.mem_map.mpr
    refine ⟨(wid, dictGet ((db.inventory.filter (fun inv =>
        (items.map Prod.fst).contains inv.product_id)).foldl
          (build_step db (required_quantities items)) []) wid), ?_, rfl⟩
    apply List.mem_filter.mpr
    refine ⟨hmem, ?_⟩
    simp only [beq_iff_eq]
    rw [hget, hmapped_len]

/-! ### The closest-warehouse scan -/

theorem select_closest_some_ne_none (d : Warehouse → ℚ) :
    ∀ (l : List Warehouse) (bw : Warehouse) (bd : ℚ),
      select_closest d (some (bw, bd)) l ≠ none := by
  intro l
  induction l with
  | nil => intro bw bd h; simp [select_closest] at h
  | cons w ws ih =>
    intro bw bd h
    simp only [select_closest] at h
    by_cases hlt : d w < bd
    · rw [if_pos hlt] at h
      exact ih w (d w) h
    · rw [if_neg hlt] at h
      exact ih bw bd h

/-- The scan keeps the accumulator's distance equal to the distance of the
stored warehouse, replaces it only on strictly smaller distances, and
returns the first minimum; over an id-sorted list the first minimum is the
one with the least id. -/
theorem select_closest_min (d : Warehouse → ℚ) :
    ∀ (l : List Warehouse) (bw w : Warehouse),
      l.Pairwise (fun a b => a.id < b.id) →
      (∀ x ∈ l, bw.id < x.id) →
      select_closest d (some (bw, d bw)) l = some w →
      ((w = bw) ∨ (w ∈ l ∧ d w < d bw))
      ∧ ∀ x ∈ l, d w ≤ d x ∧ (d x = d w → w = x ∨ w.id < x.id) := by
  intro l
  induction l with
  | nil =>
    intro bw w _ _ h
    simp only [select_closest, Option.map_some', Option.some.injEq] at h
    exact ⟨Or.inl h.symm, fun x hx => absurd hx (List.not_mem_nil x)⟩
  | cons y ys ih =>
    intro bw w hpair hblow h
    simp only [select_closest] at h
    rw [List.pairwise_cons] at hpair
    by_cases hlt : d y < d bw
    · rw [if_pos hlt] at h
      have hih := ih y w hpair.2 (fun x hx => hpair.1 x hx) h
      constructor
      · rcases hih.1 with rfl | ⟨hmem, hdlt⟩
        · exact Or.inr ⟨List.mem_cons_self _ _, hlt⟩
        · exact Or.inr ⟨List.mem_cons_of_mem _ hmem, hdlt.trans hlt⟩
      · intro x hx
        rcases List.mem_cons.mp hx with rfl | hx2
        · constructor
          · rcases hih.1 with rfl | ⟨_, hdlt⟩
            · exact le_refl _
            · exact le_of_lt hdlt
          · intro hdeq
            rcases hih.1 with rfl | ⟨_, hdlt⟩
            · exact Or.inl rfl
            · exact absurd hdeq (ne_of_gt hdlt)
        · exact hih.2 x hx2
    · rw [if_neg hlt] at h
      have hih := ih bw w hpair.2 (fun x hx => hblow x (List.mem_cons_of_mem _ hx)) h
      have hwb : d w ≤ d bw := by
        rcases hih.1 with rfl | ⟨_, hdlt⟩
        · exact le_refl _
        · exact le_of_lt hdlt
      constructor
      · rcases hih.1 with h1 | ⟨hmem, hdlt⟩
        · exact Or.inl h1
        · exact Or.inr ⟨List.mem_cons_of_mem _ hmem, hdlt⟩
      · intro x hx
        rcases List.mem_cons.mp hx with rfl | hx2
        · have hby : d bw ≤ d x := not_lt.mp hlt
          refine ⟨hwb.trans hby, fun hdeq => ?_⟩
          rcases hih.1 with rfl | ⟨_, hdlt⟩
          · exact Or.inr (hblow x (List.mem_cons_self _ _))
          · exact absurd (le_antisymm hwb (hdeq ▸ hby)) (ne_of_lt hdlt)
        · exact hih.2 x hx2

/-- Starting the scan with the `float('inf')` accumulator over an
id-sorted list yields a member of minimum distance, the earliest (hence
lowest-id) among ties. -/
theorem select_closest_none_spec (d : Warehouse → ℚ) (l : List Warehouse) (w : Warehouse)
    (hpair : l.Pairwise (fun a b => a.id < b.id))
    (h : select_closest d none l = some w) :
    w ∈ l ∧ ∀ x ∈ l, d w ≤ d x ∧ (d x = d w → w.id ≤ x.id) := by
  cases l with
  | nil => simp [select_closest] at h
  | cons y ys =>
    simp only [select_closest] at h
    rw [List.pairwise_cons] at hpair
    have hspec := select_closest_min d ys y w hpair.2 hpair.1 h
    constructor
    · rcases hspec.1 with rfl | ⟨hmem, _⟩
      · exact List.mem_cons_self _ _
      · exact List.mem_cons_of_mem _ hmem
    · intro x hx
      rcases List.mem_cons.mp hx with rfl | hx2
      · constructor
        · rcases hspec.1 with rfl | ⟨_, hdlt⟩
          · exact le_refl _
          · exact le_of_lt hdlt
        · intro hdeq
          rcases hspec.1 with rfl | ⟨hmem, hdlt⟩
          · exact le_refl _
          · exact absurd (le_antisymm (le_of_lt hdlt) (le_of_eq hdeq))
              (ne_of_lt hdlt)
      · refine ⟨(hspec.2 x hx2).1, fun hdeq => ?_⟩
        rcases (hspec.2 x hx2).2 hdeq with rfl | hlt2
        · exact le_refl _
        · exact le_of_lt hlt2

/-- The scan only ever returns the seed or a member of the list. -/
theorem select_closest_mem (d : Warehouse → ℚ) :
    ∀ (l : List Warehouse) (bw : Warehouse) (bd : ℚ) (w : Warehouse),
      select_closest d (some (bw, bd)) l = some w → w = bw ∨ w ∈ l := by
  intro l
  induction l with
  | nil =>
    intro bw bd w h
    simp only [select_closest, Option.map_some', Option.some.injEq] at h
    exact Or.inl h.symm
  | cons x xs ih =>
    intro bw bd w h
    simp only [select_closest] at h
    by_cases hlt : d x < bd
    · rw [if_pos hlt] at h
      rcases ih x (d x) w h with rfl | hmem
      · exact Or.inr (List.mem_cons_self _ _)
      · exact Or.inr (List.mem_cons_of_mem _ hmem)
    · rw [if_neg hlt] at h
      rcases ih bw bd w h with h1 | hmem
      · exact Or.inl h1
      · exact Or.inr (List.mem_cons_of_mem _ hmem)

/-- The product ids grouped for one warehouse are pairwise distinct (the
inventory key is a primary key). -/
theorem stocked_map_nodup (db : Database) (required : Nat → Nat) (pids : List Nat)
    (wid : Nat)
    (hinv : db.inventory.Pairwise (fun a b =>
      ¬(a.warehouse_id = b.warehouse_id ∧ a.product_id = b.product_id))) :
    ((db.inventory.filter (fun r =>
        (r.warehouse_id == wid && row_passes db required r)
          && pids.contains r.product_id)).map Inventory.product_id).Nodup := by
  have hfilt_nodup : (db.inventory.filter (fun r =>
      (r.warehouse_id == wid && row_passes db required r)
        && pids.contains r.product_id)).Nodup := by
    refine List.Pairwise.imp ?_ (List.Pairwise.sublist (List.filter_sublist db.inventory) hinv)
    intro a b hab heq
    exact hab (by rw [heq]; exact ⟨rfl, rfl⟩)
  apply List.Nodup.map_on ?_ hfilt_nodup
  intro x hx y hy hxy
  have hxm := List.mem_filter.mp hx
  have hym := List.mem_filter.mp hy
  have hxw : x.warehouse_id = wid := by
    have := hxm.2
    simp only [Bool.and_eq_true, beq_iff_eq] at this
    exact this.1.1
  have hyw : y.warehouse_id = wid := by
    have := hym.2
    simp only [Bool.and_eq_true, beq_iff_eq] at this
    exact this.1.1
  by_contra hne2
  have hsymm : Symmetric (fun a b : Inventory =>
      ¬(a.warehouse_id = b.warehouse_id ∧ a.product_id = b.product_id)) := by
    intro a b hab hba
    exact hab ⟨hba.1.symm, hba.2.symm⟩
  exact (List.Pairwise.forall hsymm hinv hxm.1 hym.1 hne2) ⟨hxw.trans hyw.symm, hxy⟩

/-- Every grouped product id is a requested id. -/
theorem stocked_map_subset (db : Database) (required : Nat → Nat) (pids : List Nat)
    (wid : Nat) :
    ((db.inventory.filter (fun r =>
        (r.warehouse_id == wid && row_passes db required r)
          && pids.contains r.product_id)).map Inventory.product_id) ⊆ pids := by
  intro p hp
  obtain ⟨r, hr, rfl⟩ := List.mem_map.mp hp
  have := (List.mem_filter.mp hr).2
  simp only [Bool.and_eq_true] at this
  simpa using this.2

/-! ### C9 — duplicate product ids can never be fulfilled -/

/-- C9: when the request repeats a product id, the selector's count-based
coverage check compares the per-warehouse count of distinct covered
products against the length of the id list counted with multiplicity, so
no warehouse can ever reach the required count: with an existing customer
and no missing product, `create_order` always fails with
`noWarehouseAvailable`, regardless of stock. -/
theorem duplicate_product_ids_no_warehouse (dist : ℚ → ℚ → ℚ → ℚ → ℚ)
    (sha : String → Nat × Nat) (fresh : String) (db : Database) (req : CreateOrderRequest)
    (hinv : db.inventory.Pairwise (fun a b =>
      ¬(a.warehouse_id = b.warehouse_id ∧ a.product_id = b.product_id)))
    (hc : customer_lookup db req ≠ none)
    (hm : missing_products db req = [])
    (hdup : ¬(request_product_ids req).Nodup) :
    (create_order dist sha fresh db req).1 = .error .noWarehouseAvailable := by
  obtain ⟨c, hc⟩ := Option.ne_none_iff_exists'.mp hc
  have hpids : (req.items.map (fun i => (i.product_id, i.quantity))).map Prod.fst
      = request_product_ids req := by
    rw [List.map_map]
    rfl
  have hw : selected_warehouse dist sha db req = none := by
    rw [selected_warehouse]
    have hitems_ne : (req.items.map (fun i => (i.product_id, i.quantity))).isEmpty = false := by
      cases hreq : req.items with
      | nil =>
        exfalso
        apply hdup
        rw [request_product_ids, hreq]
        exact List.nodup_nil
      | cons a as => rfl
    have hdedup_lt : (request_product_ids req).dedup.length
        < (request_product_ids req).length := by
      rcases Nat.lt_or_ge (request_product_ids req).dedup.length
          (request_product_ids req).length with h | h
      · exact h
      · exfalso
        have hle := (List.dedup_sublist (request_product_ids req)).length_le
        have heq2 : (request_product_ids req).dedup.length
            = (request_product_ids req).length := le_antisymm hle h
        have heq3 : (request_product_ids req).dedup = request_product_ids req :=
          (List.dedup_sublist (request_product_ids req)).eq_of_length heq2
        exact hdup (heq3 ▸ List.nodup_dedup (request_product_ids req))
    simp only [find_best_warehouse, hitems_ne, Bool.false_eq_true, if_false]
    have hqnil : (((db.inventory.filter (fun inv =>
        ((req.items.map (fun i => (i.product_id, i.quantity))).map
          Prod.fst).contains inv.product_id)).foldl
            (build_step db (required_quantities
              (req.items.map (fun i => (i.product_id, i.quantity))))) []).filter (fun e =>
                e.2.length == ((req.items.map (fun i =>
                  (i.product_id, i.quantity))).map Prod.fst).length)) = [] := by
      apply List.filter_eq_nil.mpr
      intro e he
      have hkeys := nodup_keys_foldl_build db
        (required_quantities (req.items.map (fun i => (i.product_id, i.quantity))))
        (db.inventory.filter (fun inv =>
          ((req.items.map (fun i => (i.product_id, i.quantity))).map
            Prod.fst).contains inv.product_id)) [] (by simp)
      have hval : dictGet ((db.inventory.filter (fun inv =>
          ((req.items.map (fun i => (i.product_id, i.quantity))).map
            Prod.fst).contains inv.product_id)).foldl
              (build_step db (required_quantities
                (req.items.map (fun i => (i.product_id, i.quantity))))) []) e.1 = e.2 :=
        dictGet_of_mem _ e hkeys he
      rw [dictGet_build_eq] at hval
      have hnodup2 := stocked_map_nodup db
        (required_quantities (req.items.map (fun i => (i.product_id, i.quantity))))
        ((req.items.map (fun i => (i.product_id, i.quantity))).map Prod.fst) e.1 hinv
      have hsub2 := stocked_map_subset db
        (required_quantities (req.items.map (fun i => (i.product_id, i.quantity))))
        ((req.items.map (fun i => (i.product_id, i.quantity))).map Prod.fst) e.1
      have hsubd : ((db.inventory.filter (fun r =>
          (r.warehouse_id == e.1 && row_passes db (required_quantities
            (req.items.map (fun i => (i.product_id, i.quantity)))) r)
            && ((req.items.map (fun i => (i.product_id, i.quantity))).map
              Prod.fst).contains r.product_id)).map Inventory.product_id)
          ⊆ ((req.items.map (fun i => (i.product_id, i.quantity))).map Prod.fst).dedup :=
        fun p hp => List.subset_dedup _ (hsub2 hp)
      have hlen_le := (List.Nodup.subperm hnodup2 hsubd).length_le
      have hlt : e.2.length < ((req.items.map (fun i =>
          (i.product_id, i.quantity))).map Prod.fst).length := by
        rw [← hval]
        calc _ ≤ _ := hlen_le
        _ < _ := by rw [hpids]; exact hdedup_lt
      simp only [beq_iff_eq]
      exact Nat.ne_of_lt hlt
    rw [hqnil]
    rfl
  rw [create_order_warehouse_branch dist sha fresh db req c hc hm hw]

/-- C9 witness: requesting product 1 twice against a warehouse holding 100
units still yields `noWarehouseAvailable`. -/
theorem duplicate_product_ids_no_warehouse_witness :
    ((exampleDb.inventory.Pairwise (fun a b =>
        ¬(a.warehouse_id = b.warehouse_id ∧ a.product_id = b.product_id)))
      ∧ ¬(request_product_ids
          { exampleRequest with items := [{ product_id := 1, quantity := 1 },
            { product_id := 1, quantity := 1 }] }).Nodup)
    ∧ (create_order zeroDist zeroSha "abc" exampleDb
        { exampleRequest with items := [{ product_id := 1, quantity := 1 },
          { product_id := 1, quantity := 1 }] }).1 = .error .noWarehouseAvailable :=
  ⟨⟨by decide, by decide⟩,
    duplicate_product_ids_no_warehouse zeroDist zeroSha "abc" exampleDb
      { exampleRequest with items := [{ product_id := 1, quantity := 1 },
        { product_id := 1, quantity := 1 }] }
      (by decide) (by decide) (by decide) (by decide)⟩

/-! ### C1 — when the selector returns nothing, and what a returned
warehouse guarantees -/

/-- C1 counterexample: with the duplicated item list [(1,2),(1,2)] the
sole warehouse spec-qualifies (it stocks 10 ≥ 2 of product 1) and the list
is non-empty, yet `find_best_warehouse` returns `none` — the claimed
"None iff empty or no warehouse qualifies" equivalence fails on lists with
repeated product ids. -/
theorem find_best_warehouse_duplicates_counterexample :
    find_best_warehouse zeroDist exampleDb [(1, 2), (1, 2)]
        { latitude := 25, longitude := -125 } = none
    ∧ ([(1, 2), (1, 2)] : List (Nat × Nat)) ≠ []
    ∧ (∃ w ∈ exampleDb.warehouses, warehouse_qualifies exampleDb [(1, 2), (1, 2)] w.id = true) := by
  refine ⟨by decide, by decide, ?_⟩
  refine ⟨{ id := 1, name := "Main", address := "1 Depot Way", latitude := 0, longitude := 0 },
    by decide, by decide⟩

/-- C1 (amended): restricted to item lists with pairwise-distinct product
ids (the spec's own input contract — duplicates are a caller error), and
under the inventory primary key: `find_best_warehouse` returns `none` iff
the list is empty or no stored warehouse qualifies, and any returned
warehouse is a stored warehouse that qualifies. -/
theorem find_best_warehouse_none_iff (dist : ℚ → ℚ → ℚ → ℚ → ℚ) (db : Database)
    (items : List (Nat × Nat)) (loc : GeoLocation)
    (hinv : db.inventory.Pairwise (fun a b =>
      ¬(a.warehouse_id = b.warehouse_id ∧ a.product_id = b.product_id)))
    (hnodup : (items.map Prod.fst).Nodup) :
    (find_best_warehouse dist db items loc = none
      ↔ items = [] ∨ ∀ w ∈ db.warehouses, warehouse_qualifies db items w.id = false)
  ∧ (∀ w, find_best_warehouse dist db items loc = some w →
      w ∈ db.warehouses ∧ warehouse_qualifies db items w.id = true) := by
  by_cases hne : items.isEmpty = true
  · have hitems : items = [] := by
      cases items with
      | nil => rfl
      | cons a as => simp at hne
    rw [find_best_warehouse, if_pos hne]
    exact ⟨⟨fun _ => Or.inl hitems, fun _ => rfl⟩, fun w h => absurd h (by simp)⟩
  · rw [Bool.not_eq_true] at hne
    have hitems : items ≠ [] := by
      intro h
      rw [h] at hne
      simp at hne
    have hchar := fun wid => qualifying_ids_mem_iff db items wid hinv hnodup hitems
    simp only [find_best_warehouse, hne, Bool.false_eq_true, if_false]
    set qids := (((db.inventory.filter (fun inv =>
      (items.map Prod.fst).contains inv.product_id)).foldl
        (build_step db (required_quantities items)) []).filter (fun e =>
          e.2.length == (items.map Prod.fst).length)).map Prod.fst with hqids_def
    set ws := db.warehouses.filter (fun w2 => qids.contains w2.id) with hws_def
    have hfiltmem : ∀ w, w ∈ ws
        ↔ w ∈ db.warehouses ∧ warehouse_qualifies db items w.id = true := by
      intro w
      rw [hws_def, List.mem_filter]
      constructor
      · rintro ⟨hw, hcont⟩
        exact ⟨hw, (hchar w.id).mp (by simpa [hqids_def] using hcont)⟩
      · rintro ⟨hw, hq2⟩
        refine ⟨hw, ?_⟩
        have := (hchar w.id).mpr hq2
        simpa [hqids_def] using this
    by_cases hq : qids.isEmpty = true
    · rw [if_pos hq]
      have hqnil : qids = [] := by
        cases hcase : qids with
        | nil => rfl
        | cons a as => rw [hcase] at hq; simp at hq
      refine ⟨⟨fun _ => Or.inr ?_, fun _ => rfl⟩, fun w h => absurd h (by simp)⟩
      intro w hw
      cases hqual : warehouse_qualifies db items w.id with
      | false => rfl
      | true =>
        have hmem := (hchar w.id).mpr hqual
        rw [hqnil] at hmem
        cases hmem
    · rw [Bool.not_eq_true] at hq
      rw [if_neg (by rw [hq]; exact Bool.false_ne_true)]
      by_cases hwf : ws.isEmpty = true
      · rw [if_pos hwf]
        have hfnil : ws = [] := by
          cases hcase : ws with
          | nil => rfl
          | cons a as => rw [hcase] at hwf; simp at hwf
        refine ⟨⟨fun _ => Or.inr ?_, fun _ => rfl⟩, fun w h => absurd h (by simp)⟩
        intro w hw
        cases hqual : warehouse_qualifies db items w.id with
        | false => rfl
        | true =>
          have hmem := (hfiltmem w).mpr ⟨hw, hqual⟩
          rw [hfnil] at hmem
          cases hmem
      · rw [Bool.not_eq_true] at hwf
        rw [if_neg (by rw [hwf]; exact Bool.false_ne_true)]
        have hwsne : ws ≠ [] := by
          intro h
          rw [h] at hwf
          simp at hwf
        obtain ⟨a, as, hcase⟩ := List.exists_cons_of_ne_nil hwsne
        have hres_mem : ∀ w, (if (ws.length == 1) = true then ws.head?
            else select_closest (fun w2 =>
              dist loc.latitude loc.longitude w2.latitude w2.longitude) none ws) = some w →
            w ∈ ws := by
          intro w h
          by_cases hlen : (ws.length == 1) = true
          · rw [if_pos hlen, hcase] at h
            simp only [List.head?_cons, Option.some.injEq] at h
            rw [hcase, ← h]
            exact List.mem_cons_self _ _
          · rw [if_neg hlen, hcase] at h
            simp only [select_closest] at h
            rcases select_closest_mem _ as a _ w h with rfl | hmem
            · rw [hcase]
              exact List.mem_cons_self _ _
            · rw [hcase]
              exact List.mem_cons_of_mem _ hmem
        have hres_ne : (if (ws.length == 1) = true then ws.head?
            else select_closest (fun w2 =>
              dist loc.latitude loc.longitude w2.latitude w2.longitude) none ws) ≠ none := by
          by_cases hlen : (ws.length == 1) = true
          · rw [if_pos hlen, hcase]
            simp
          · rw [if_neg hlen, hcase]
            intro h
            simp only [select_closest] at h
            exact select_closest_some_ne_none _ as a _ h
        refine ⟨⟨fun h => absurd h hres_ne, fun hrhs => ?_⟩,
          fun w h => (hfiltmem w).mp (hres_mem w h)⟩
        exfalso
        rcases hrhs with h1 | h2
        · exact hitems h1
        · obtain ⟨a, ha⟩ := List.exists_mem_of_ne_nil ws hwsne
          have := (hfiltmem a).mp ha
          rw [h2 a this.1] at this
          exact Bool.false_ne_true this.2

/-- C1 witness: on the well-formed request [(1,2)] the selector returns
the sole qualifying warehouse, which indeed qualifies. -/
theorem find_best_warehouse_none_iff_witness :
    ((exampleDb.inventory.Pairwise (fun a b =>
        ¬(a.warehouse_id = b.warehouse_id ∧ a.product_id = b.product_id)))
      ∧ (([(1, 2)] : List (Nat × Nat)).map Prod.fst).Nodup)
    ∧ (find_best_warehouse zeroDist exampleDb [(1, 2)]
        { latitude := 25, longitude := -125 }
        = some { id := 1, name := "Main", address := "1 Depot Way",
                 latitude := 0, longitude := 0 }
      ∧ ({ id := 1, name := "Main", address := "1 Depot Way", latitude := 0,
           longitude := 0 } : Warehouse) ∈ exampleDb.warehouses
      ∧ warehouse_qualifies exampleDb [(1, 2)] 1 = true) :=
  have hres : find_best_warehouse zeroDist exampleDb [(1, 2)]
      { latitude := 25, longitude := -125 }
      = some { id := 1, name := "Main", address := "1 Depot Way",
               latitude := 0, longitude := 0 } := by decide
  have h := (find_best_warehouse_none_iff zeroDist exampleDb [(1, 2)]
      { latitude := 25, longitude := -125 } (by decide) (by decide)).2 _ hres
  ⟨⟨by decide, by decide⟩, hres, h.1, h.2⟩

/-! ### C2 — minimal distance, ties to the lowest id -/

/-- C2: whenever `find_best_warehouse` returns a warehouse, that warehouse
minimizes the distance to the shipping coordinate among all stored
qualifying warehouses, and equidistant qualifying warehouses have ids no
smaller than the returned one.  The warehouses table is scanned in
primary-key order (`hsort`); the distance function is abstract, the code
instantiating it with `haversine_distance`. -/
theorem find_best_warehouse_closest (dist : ℚ → ℚ → ℚ → ℚ → ℚ) (db : Database)
    (items : List (Nat × Nat)) (loc : GeoLocation) (w : Warehouse)
    (hsort : db.warehouses.Pairwise (fun a b => a.id < b.id))
    (hinv : db.inventory.Pairwise (fun a b =>
      ¬(a.warehouse_id = b.warehouse_id ∧ a.product_id = b.product_id)))
    (hnodup : (items.map Prod.fst).Nodup)
    (hw : find_best_warehouse dist db items loc = some w) :
    ∀ x ∈ db.warehouses, warehouse_qualifies db items x.id = true →
      dist loc.latitude loc.longitude w.latitude w.longitude
        ≤ dist loc.latitude loc.longitude x.latitude x.longitude
      ∧ (dist loc.latitude loc.longitude x.latitude x.longitude
          = dist loc.latitude loc.longitude w.latitude w.longitude → w.id ≤ x.id) := by
  by_cases hne : items.isEmpty = true
  · rw [find_best_warehouse, if_pos hne] at hw
    exact absurd hw (by simp)
  · rw [Bool.not_eq_true] at hne
    have hitems : items ≠ [] := by
      intro h
      rw [h] at hne
      simp at hne
    have hchar := fun wid => qualifying_ids_mem_iff db items wid hinv hnodup hitems
    rw [find_best_warehouse] at hw
    rw [if_neg (by rw [hne]; exact Bool.false_ne_true)] at hw
    simp only at hw
    set qids := (((db.inventory.filter (fun inv =>
      (items.map Prod.fst).contains inv.product_id)).foldl
        (build_step db (required_quantities items)) []).filter (fun e =>
          e.2.length == (items.map Prod.fst).length)).map Prod.fst with hqids_def
    set ws := db.warehouses.filter (fun w2 => qids.contains w2.id) with hws_def
    have hfiltmem : ∀ y, y ∈ ws
        ↔ y ∈ db.warehouses ∧ warehouse_qualifies db items y.id = true := by
      intro y
      rw [hws_def, List.mem_filter]
      constructor
      · rintro ⟨hy, hcont⟩
        exact ⟨hy, (hchar y.id).mp (by simpa [hqids_def] using hcont)⟩
      · rintro ⟨hy, hq2⟩
        refine ⟨hy, ?_⟩
        have := (hchar y.id).mpr hq2
        simpa [hqids_def] using this
    by_cases hq : qids.isEmpty = true
    · rw [if_pos hq] at hw
      exact absurd hw (by simp)
    · rw [Bool.not_eq_true] at hq
      rw [if_neg (by rw [hq]; exact Bool.false_ne_true)] at hw
      by_cases hwf : ws.isEmpty = true
      · rw [if_pos hwf] at hw
        exact absurd hw (by simp)
      · rw [Bool.not_eq_true] at hwf
        rw [if_neg (by rw [hwf]; exact Bool.false_ne_true)] at hw
        intro x hx hqx
        have hxws : x ∈ ws := (hfiltmem x).mpr ⟨hx, hqx⟩
        by_cases hlen : (ws.length == 1) = true
        · rw [if_pos hlen] at hw
          obtain ⟨a, hcase⟩ := List.length_eq_one.mp (by simpa using hlen)
          rw [hcase] at hw hxws
          simp only [List.head?_cons, Option.some.injEq] at hw
          have hxa : x = a := List.mem_singleton.mp hxws
          rw [hxa, ← hw]
          exact ⟨le_refl _, fun _ => le_refl _⟩
        · rw [if_neg hlen] at hw
          have hpairws : ws.Pairwise (fun a b => a.id < b.id) :=
            List.Pairwise.sublist (List.filter_sublist db.warehouses) hsort
          have hspec := select_closest_none_spec
            (fun w2 => dist loc.latitude loc.longitude w2.latitude w2.longitude)
            ws w hpairws hw
          exact hspec.2 x hxws

/-- A two-warehouse store where both warehouses stock product 1. -/
def twoWarehouseDb : Database :=
  { customers := [{ id := 1, name := "Alice", email := "alice@example.com" }]
    products := [{ id := 1, name := "Widget", price := 5 }]
    warehouses := [{ id := 1, name := "A", address := "a", latitude := 10, longitude := 0 },
                   { id := 2, name := "B", address := "b", latitude := 5, longitude := 0 }]
    inventory := [{ warehouse_id := 1, product_id := 1, quantity := 10 },
                  { warehouse_id := 2, product_id := 1, quantity := 10 }]
    orders := []
    order_items := [] }

/-- A concrete distance function: the warehouse's latitude. -/
def latDist : ℚ → ℚ → ℚ → ℚ → ℚ := fun _ _ wlat _ => wlat

/-- C2 witness: with both warehouses qualifying and warehouse 2 closer
(distance 5 < 10), the selector returns warehouse 2, whose distance is
minimal. -/
theorem find_best_warehouse_closest_witness :
    (find_best_warehouse latDist twoWarehouseDb [(1, 2)]
        { latitude := 25, longitude := -125 }
      = some { id := 2, name := "B", address := "b", latitude := 5, longitude := 0 })
    ∧ latDist 25 (-125) 5 0 ≤ latDist 25 (-125) 10 0 :=
  have hres : find_best_warehouse latDist twoWarehouseDb [(1, 2)]
      { latitude := 25, longitude := -125 }
      = some { id := 2, name := "B", address := "b", latitude := 5, longitude := 0 } := by
    decide
  have h := find_best_warehouse_closest latDist twoWarehouseDb [(1, 2)]
    { latitude := 25, longitude := -125 }
    { id := 2, name := "B", address := "b", latitude := 5, longitude := 0 }
    (by decide) (by decide) (by decide) hres
    { id := 1, name := "A", address := "a", latitude := 10, longitude := 0 }
    (by decide) (by decide)
  ⟨hres, h.1⟩

end Canals
